import Mathlib

/-!
Verification of the static checker/evaluator in `archivo.c++`.

The C++ program is embedded shallowly:
* machine `double` values are modeled by `Frac`, an exact (unnormalized) fraction; every
  numeric value this program manipulates in the verified scenarios is exactly representable;
* the two kinds of C++ exceptions that matter are modeled by `CErr`: `runtime_error`
  (caught by the arithmetic-assignment recognizer) and `invalid_argument` (raised by
  `std::stod`, never caught, so it escapes as `Except.error` and models a crash);
* the global mutable state (`tablaSimbolos`, `idGlobalCounter`, `pilaSemantica`, the token
  cursor `i`) is threaded explicitly through every recognizer;
* `while` loops and the recursive descent are given an explicit fuel argument; fuel
  exhaustion is reported as an error that is never reached at the fuel values used in the
  theorems below;
* out-of-range `std::vector` indexing (undefined behavior in C++) is modeled by a sentinel
  token whose `tipo` is the empty string, which matches no expected token category;
* console output is not modeled; diagnostic strings attached to errors follow the C++
  texts (apostrophes are omitted from them).
-/

/-- Run-time failure kinds: `rt` models `std::runtime_error` (the only exception type the
program throws itself), `invalidArg` models `std::invalid_argument` from `std::stod`,
which no handler in the program catches. -/
inductive CErr where
  | rt (msg : String)
  | invalidArg (msg : String)
deriving DecidableEq, Repr

deriving instance DecidableEq for Except

/-- enum class DataType { INT, FLOAT, STRING, UNKNOWN } -/
inductive DataType where
  | INT
  | FLOAT
  | STRING
  | UNKNOWN
deriving DecidableEq, Repr

/-- struct Token { string tipo; string valor; } -/
structure Token where
  tipo : String
  valor : String
deriving DecidableEq, Repr

/-- struct Simbolo { string nombre; string tipo; string valor; string id_contador; } -/
structure Simbolo where
  nombre : String
  tipo : String
  valor : String
  id_contador : String
deriving DecidableEq, Repr

/-- Exact fraction model of the C++ `double`. All literals the lexer produces are decimal
fractions, and `+ - * /` on them are modeled exactly; `den = 0` only arises from division
by zero (where C++ doubles produce an infinity; no verified scenario divides by zero). -/
structure Frac where
  num : Int
  den : Nat
deriving DecidableEq, Repr

def Frac.add (a b : Frac) : Frac := ⟨a.num * b.den + b.num * a.den, a.den * b.den⟩

def Frac.sub (a b : Frac) : Frac := ⟨a.num * b.den - b.num * a.den, a.den * b.den⟩

def Frac.mul (a b : Frac) : Frac := ⟨a.num * b.num, a.den * b.den⟩

def Frac.inv (a : Frac) : Frac :=
  if 0 ≤ a.num then ⟨(a.den : Int), a.num.toNat⟩ else ⟨-(a.den : Int), (-a.num).toNat⟩

def Frac.div (a b : Frac) : Frac := a.mul b.inv

/-- `static_cast<int>` on a `double`: truncation toward zero, like C++. -/
def Frac.trunc (a : Frac) : Int := Int.tdiv a.num (a.den : Int)

def Frac.ofNat (n : Nat) : Frac := ⟨(n : Int), 1⟩

/-- Characters `0`-`9` folded to the natural number they spell. -/
def digitsToNat (cs : List Char) : Nat :=
  cs.foldl (fun a c => 10 * a + (c.toNat - 48)) 0

/-- Models `std::stod`: an optional sign, then digits with an optional fractional part;
trailing characters are ignored, and if no digit can be parsed the C++ call raises
`std::invalid_argument` (exponents and hex forms, which this program never produces, are
not modeled). -/
def stodQ (s : String) : Except CErr Frac :=
  let cs := s.toList
  let signCs : Bool × List Char :=
    match cs with
    | c :: rest => if c = '-' then (true, rest) else if c = '+' then (false, rest) else (false, cs)
    | [] => (false, [])
  let ip := signCs.2.takeWhile Char.isDigit
  let resto := signCs.2.drop ip.length
  let fp : List Char :=
    match resto with
    | c :: rest => if c = '.' then rest.takeWhile Char.isDigit else []
    | [] => []
  if ip.isEmpty && fp.isEmpty then .error (.invalidArg "stod")
  else
    let v : Frac := ⟨(digitsToNat ip : Int) * (10 ^ fp.length : Nat) + (digitsToNat fp : Int),
                     10 ^ fp.length⟩
    .ok (if signCs.1 then ⟨-v.num, v.den⟩ else v)

/-- DataType stringToDataType(const string&) -/
def stringToDataType (tipo : String) : DataType :=
  if tipo = "int" then DataType.INT
  else if tipo = "float" then DataType.FLOAT
  else if tipo = "string" then DataType.STRING
  else DataType.UNKNOWN

/-- string dataTypeToString(DataType) -/
def dataTypeToString (tipo : DataType) : String :=
  match tipo with
  | DataType.INT => "int"
  | DataType.FLOAT => "float"
  | DataType.STRING => "string"
  | DataType.UNKNOWN => "unknown"

/-- Nonempty all-digit character list (the regex `\d+`). -/
def soloDigitos (cs : List Char) : Bool := !cs.isEmpty && cs.all Char.isDigit

/-- The anchored regex `^-?\d+$` used by `esValorCompatible` for `int`. -/
def esEnteroTexto (s : String) : Bool :=
  let cs := s.toList
  let cuerpo := if cs.head? = some '-' then cs.tail else cs
  soloDigitos cuerpo

/-- The anchored regex `^-?\d+(\.\d+)?$` used by `esValorCompatible` for `float`. -/
def esFlotanteTexto (s : String) : Bool :=
  let cs := s.toList
  let cuerpo := if cs.head? = some '-' then cs.tail else cs
  let ds := cuerpo.takeWhile Char.isDigit
  let resto := cuerpo.drop ds.length
  !ds.isEmpty && (resto.isEmpty || (resto.head? = some '.' && soloDigitos (resto.drop 1)))

/-- bool esValorCompatible(const string& valor, const string& tipo) -/
def esValorCompatible (valor tipo : String) : Bool :=
  if tipo = "int" then esEnteroTexto valor
  else if tipo = "float" then esFlotanteTexto valor
  else if tipo = "string" then true
  else false

/-- bool buscarVariable(const string&, Simbolo&): first symbol whose `nombre` matches. -/
def buscarVariable (nombre : String) : List Simbolo → Option Simbolo
  | [] => none
  | s :: rest => if s.nombre = nombre then some s else buscarVariable nombre rest

/-- The update loop of `esOperacionAritmetica`: overwrite the `valor` of the first symbol
named `nombre` (the C++ loop breaks after the first match). -/
def actualizarValor (tabla : List Simbolo) (nombre valor : String) : List Simbolo :=
  match tabla with
  | [] => []
  | s :: rest =>
    if s.nombre = nombre then { s with valor := valor } :: rest
    else s :: actualizarValor rest nombre valor

/-- Left-pad with zeros to six digits, for the fractional part of `%f` formatting. -/
def seisDigitos (n : Nat) : String :=
  let s := toString n
  String.mk (List.replicate (6 - s.length) '0') ++ s

/-- Models `std::to_string(double)`, i.e. `%.6f`: six fractional digits, rounding the
scaled magnitude to nearest (half away from zero). No verified scenario depends on the
exact digits this produces for a non-integral value. -/
def floatToString (q : Frac) : String :=
  let neg := q.num < 0
  let n : Nat := q.num.natAbs
  let escalado : Nat := (2 * n * 1000000 + q.den) / (2 * q.den)
  let ent := escalado / 1000000
  let fracc := escalado % 1000000
  (if neg then "-" else "") ++ toString ent ++ "." ++ seisDigitos fracc

/-- vector indexing `tokens[i]`; out of range is UB in C++ and is modeled by a sentinel
token matching no category. -/
def tokAt (tokens : List Token) (i : Nat) : Token := tokens.getD i ⟨"", ""⟩

/-- `tokens[i].valor[0]`; on an empty `std::string`, `s[0]` is the null character. -/
def firstChar (s : String) : Char := s.toList.headD (Char.ofNat 0)

/-- The names column of the symbol table. -/
def nombres (tabla : List Simbolo) : List String := tabla.map Simbolo.nombre

/-- The AST class hierarchy `Node` / `NumberNode` / `VariableNode` / `OperatorNode` as a
closed sum. `NumberNode` carries the value produced by `stod` and the `DataType` chosen by
its constructor. -/
inductive Node where
  | NumberNode (value : Frac) (dataType : DataType)
  | VariableNode (name : String)
  | OperatorNode (op : Char) (left : Node) (right : Node)
deriving DecidableEq, Repr

instance : DecidableEq (Bool × Nat × List DataType × List Simbolo × Option Node) :=
  instDecidableEqProd

/-- NumberNode(const string& val): FLOAT when the text contains a dot, INT otherwise;
the value is `stod(val)` (which can raise `invalid_argument`). -/
def mkNumberNode (val : String) : Except CErr Node :=
  match stodQ val with
  | .error e => .error e
  | .ok q =>
    if val.toList.contains '.' then .ok (Node.NumberNode q DataType.FLOAT)
    else .ok (Node.NumberNode q DataType.INT)

/-- VariableNode::getType: scan the table; on a name match return the mapped `DataType`,
but when the stored `tipo` is not one of the three type words the C++ loop keeps scanning;
falling off the loop throws `runtime_error`. -/
def varGetType (name : String) : List Simbolo → Except CErr DataType
  | [] => .error (.rt ("Variable no encontrada: " ++ name))
  | s :: rest =>
    if s.nombre = name then
      if s.tipo = "int" then .ok DataType.INT
      else if s.tipo = "float" then .ok DataType.FLOAT
      else if s.tipo = "string" then .ok DataType.STRING
      else varGetType name rest
    else varGetType name rest

/-- virtual DataType Node::getType(const vector<Simbolo>&). For `OperatorNode`: an
Int/Float mix promotes to FLOAT; unequal types throw; equal STRING types with an operator
other than `+` throw; otherwise the common type is returned. -/
def Node.getType (tabla : List Simbolo) : Node → Except CErr DataType
  | .NumberNode _ dataType => .ok dataType
  | .VariableNode name => varGetType name tabla
  | .OperatorNode op left right =>
    match left.getType tabla with
    | .error e => .error e
    | .ok leftType =>
      match right.getType tabla with
      | .error e => .error e
      | .ok rightType =>
        if (leftType = DataType.INT ∧ rightType = DataType.FLOAT) ∨
           (leftType = DataType.FLOAT ∧ rightType = DataType.INT) then
          .ok DataType.FLOAT
        else if leftType ≠ rightType then
          .error (.rt "Error de tipo: no se pueden mezclar tipos diferentes en operaciones")
        else if leftType = DataType.STRING ∧ op ≠ '+' then
          .error (.rt "Error de tipo: solo se permite la concatenación (+) con strings")
        else .ok leftType

/-- virtual double Node::evaluate(const vector<Simbolo>&). A variable resolves to
`stod` of the first matching symbol's stored text; an operator first re-derives its type
(STRING results are rejected here), then applies the C++ `switch` on the operator
character. -/
def Node.evaluate (tabla : List Simbolo) : Node → Except CErr Frac
  | .NumberNode value _ => .ok value
  | .VariableNode name =>
    match buscarVariable name tabla with
    | some simbolo => stodQ simbolo.valor
    | none => .error (.rt ("Variable no encontrada: " ++ name))
  | .OperatorNode op left right =>
    match Node.getType tabla (.OperatorNode op left right) with
    | .error e => .error e
    | .ok operationType =>
      if operationType = DataType.STRING then
        .error (.rt "Las operaciones con strings deben manejarse en otra función")
      else
        match left.evaluate tabla with
        | .error e => .error e
        | .ok lval =>
          match right.evaluate tabla with
          | .error e => .error e
          | .ok rval =>
            if op = '+' then .ok (lval.add rval)
            else if op = '-' then .ok (lval.sub rval)
            else if op = '*' then .ok (lval.mul rval)
            else if op = '/' then .ok (lval.div rval)
            else .error (.rt "Operador desconocido")

/-- ECMAScript `\w` over the ASCII range, as used by the `\b` boundaries. -/
def esCaracterPalabra (c : Char) : Bool := c.isAlphanum || c = '_'

/-- true when the window continues with a non-word character or ends: the trailing `\b`. -/
def limiteOk (resto : List Char) : Bool :=
  match resto with
  | [] => true
  | c :: _ => !esCaracterPalabra c

/-- Keyword patterns `\b(w1|w2|...)\b`: alternatives tried in order, anchored at the
window start (which the regex engine treats as a string start, hence a boundary). -/
def matchPalabraClave (ws : List String) (cs : List Char) : Option (List Char) :=
  match ws.find? (fun w => w.toList.isPrefixOf cs && limiteOk (cs.drop w.toList.length)) with
  | some w => some w.toList
  | none => none

/-- Plain ordered-alternation patterns such as `(>=|<=|==|!=|>|<)` and `(=|;)`. -/
def matchAlternativas (ps : List String) (cs : List Char) : Option (List Char) :=
  match ps.find? (fun p => p.toList.isPrefixOf cs) with
  | some p => some p.toList
  | none => none

/-- Single-character class patterns such as `[\+\-\/\*\*]` and the bracket patterns. -/
def matchClase (chars : List Char) (cs : List Char) : Option (List Char) :=
  match cs with
  | c :: _ => if chars.contains c then some [c] else none
  | [] => none

/-- The string pattern `"[^"]*"`. -/
def matchCadena (cs : List Char) : Option (List Char) :=
  match cs with
  | c :: rest =>
    if c = '"' then
      let cuerpo := rest.takeWhile (fun d => d ≠ '"')
      if cuerpo.length < rest.length then some ('"' :: (cuerpo ++ ['"'])) else none
    else none
  | [] => none

/-- The number pattern `\d+(\.\d+)?`: greedy digits, then the optional group only when a
dot is followed by at least one digit. Note the absence of a sign. -/
def matchNumeros (cs : List Char) : Option (List Char) :=
  let ds := cs.takeWhile Char.isDigit
  if ds.isEmpty then none
  else
    match cs.drop ds.length with
    | c :: resto2 =>
      if c = '.' then
        let fs := resto2.takeWhile Char.isDigit
        if fs.isEmpty then some ds else some (ds ++ '.' :: fs)
      else some ds
    | [] => some ds

/-- The identifier pattern `[a-zA-Z_][a-zA-Z0-9_]*`. -/
def matchIdentificador (cs : List Char) : Option (List Char) :=
  match cs with
  | c :: _ =>
    if c.isAlpha || c = '_' then some (cs.takeWhile esCaracterPalabra) else none
  | [] => none

/-- The ordered pattern list of `Lexico`, exactly in source order. -/
def patrones : List ((List Char → Option (List Char)) × String) :=
  [ (matchPalabraClave ["int", "float", "string"], "VARIABLE"),
    (matchPalabraClave ["while"], "CICLO"),
    (matchPalabraClave ["write"], "ESCRITURA"),
    (matchPalabraClave ["read"], "LECTURA"),
    (matchAlternativas [">=", "<=", "==", "!=", ">", "<"], "COMPARACION"),
    (matchClase ['+', '-', '/', '*'], "ARITMETICO"),
    (matchAlternativas ["=", ";"], "OPERADOR"),
    (matchCadena, "CADENA"),
    (matchClase [')'], "PARENTESIS_DERECHO"),
    (matchClase ['('], "PARENTESIS_IZQUIERDO"),
    (matchClase [']'], "CORCHETE_DERECHO"),
    (matchClase ['['], "CORCHETE_IZQUIERDO"),
    (matchClase ['}'], "LLAVE_DERECHA"),
    (matchClase ['{'], "LLAVE_IZQUIERDA"),
    (matchNumeros, "NUMERO"),
    (matchPalabraClave ["if", "else"], "CONDICION"),
    (matchIdentificador, "IDENTIFICADOR") ]

/-- First pattern in the list matching at the window start. -/
def primerPatron : List ((List Char → Option (List Char)) × String) → List Char →
    Option (List Char × String)
  | [], _ => none
  | (m, t) :: rest, cs =>
    match m cs with
    | some txt => some (txt, t)
    | none => primerPatron rest cs

/-- The scanning loop of `Lexico`: at each position the first matching pattern wins and
the cursor advances by the match length; an unmatched character is silently dropped. -/
def lexGo : Nat → List Char → List Token
  | 0, _ => []
  | _, [] => []
  | fuel + 1, cs =>
    match primerPatron patrones cs with
    | some (txt, tipo) => ⟨tipo, String.mk txt⟩ :: lexGo fuel (cs.drop txt.length)
    | none => lexGo fuel (cs.drop 1)

/-- vector<Token> Lexico(const string& input) -/
def Lexico (input : String) : List Token := lexGo input.length input.toList

mutual

/-- unique_ptr<Node> construirAST(const vector<Token>&, size_t&): parse one factor, then
fold `(operator, factor)` pairs left to right, checking types on the semantic stack after
each operator exactly as the C++ loop does. -/
def construirAST (fuel : Nat) (tokens : List Token) (i : Nat) (stk : List DataType)
    (tabla : List Simbolo) : Except CErr (Node × Nat × List DataType) :=
  match fuel with
  | 0 => .error (.rt "fuel agotado")
  | f + 1 =>
    match parseFactor f tokens i stk tabla false with
    | .error e => .error e
    | .ok (left, i2, stk2) => opLoop f tokens i2 stk2 tabla left

/-- The factor-parsing code of `construirAST`, duplicated in C++ for the left operand and
for the right operand inside the loop; the two copies differ only in the diagnostic of
the final `else`, selected here by `ladoDerecho`. A number or identifier leaf pushes its
`getType` onto the semantic stack. -/
def parseFactor (fuel : Nat) (tokens : List Token) (i : Nat) (stk : List DataType)
    (tabla : List Simbolo) (ladoDerecho : Bool) : Except CErr (Node × Nat × List DataType) :=
  if (tokAt tokens i).tipo = "PARENTESIS_IZQUIERDO" then
    match fuel with
    | 0 => .error (.rt "fuel agotado")
    | f + 1 =>
      match construirAST f tokens (i + 1) stk tabla with
      | .error e => .error e
      | .ok (n, i2, stk2) =>
        if i2 < tokens.length ∧ (tokAt tokens i2).tipo = "PARENTESIS_DERECHO" then
          .ok (n, i2 + 1, stk2)
        else .error (.rt "Se esperaba )")
  else if (tokAt tokens i).tipo = "NUMERO" then
    match mkNumberNode (tokAt tokens i).valor with
    | .error e => .error e
    | .ok n =>
      match n.getType tabla with
      | .error e => .error e
      | .ok t => .ok (n, i + 1, t :: stk)
  else if (tokAt tokens i).tipo = "IDENTIFICADOR" then
    match (Node.VariableNode (tokAt tokens i).valor).getType tabla with
    | .error e => .error e
    | .ok t => .ok (Node.VariableNode (tokAt tokens i).valor, i + 1, t :: stk)
  else
    .error (.rt (if ladoDerecho then "Operando derecho inválido"
                 else "Factor inesperado: " ++ (tokAt tokens i).valor))

/-- The `while (i < tokens.size() && tokens[i].tipo == "ARITMETICO")` loop: parse the
right factor, pop the two topmost stack types, combine them (Int/Float mix promotes to
FLOAT, equal types keep their type, anything else throws — note that the operator itself
is not examined here), push the result and continue with the new `OperatorNode` as the
accumulated left tree. -/
def opLoop : Nat → List Token → Nat → List DataType → List Simbolo → Node →
    Except CErr (Node × Nat × List DataType)
  | 0, tokens, i, stk, _, left =>
    if i < tokens.length ∧ (tokAt tokens i).tipo = "ARITMETICO" then
      .error (.rt "fuel agotado")
    else .ok (left, i, stk)
  | f + 1, tokens, i, stk, tabla, left =>
    if i < tokens.length ∧ (tokAt tokens i).tipo = "ARITMETICO" then
      match parseFactor f tokens (i + 1) stk tabla true with
      | .error e => .error e
      | .ok (right, i2, stk2) =>
        match stk2 with
        | tipoDerecho :: tipoIzquierdo :: resto =>
          if (tipoIzquierdo = DataType.INT ∧ tipoDerecho = DataType.FLOAT) ∨
             (tipoIzquierdo = DataType.FLOAT ∧ tipoDerecho = DataType.INT) then
            opLoop f tokens i2 (DataType.FLOAT :: resto) tabla
              (Node.OperatorNode (firstChar (tokAt tokens i).valor) left right)
          else if tipoIzquierdo = tipoDerecho then
            opLoop f tokens i2 (tipoIzquierdo :: resto) tabla
              (Node.OperatorNode (firstChar (tokAt tokens i).valor) left right)
          else .error (.rt "Tipos incompatibles")
        | _ => .error (.rt "pila semantica vacia")
    else .ok (left, i, stk)

end

/-- bool esOperacionAritmetica(const vector<Token>&, size_t&, unique_ptr<Node>&).

The C++ entry guard is a chain of `&&` and `||` with no parentheses; since `&&` binds
tighter than `||` it parses as the four-way disjunction written here — in particular the
`tokens[i + 1].valor == "="` comparison belongs only to the PARENTESIS_DERECHO disjunct
(whose `valor` is `)`), so no disjunct ever checks for the `=` operator.

The body mirrors the C++ `try`/`catch (runtime_error)`: every branch that C++ reaches by
catching a `runtime_error` returns `false` with the cursor moved back to `posInicial`;
an `invalid_argument` from `stod` is not caught and escapes as `.error`. The re-evaluation
of the tree after the table update models the `Resultado:` display, which runs inside the
same `try` block (the display traversal itself is not otherwise modeled). On a caught
build error the C++ global type stack may retain partial pushes; the entry stack is
returned in that case, which nothing can observe because the driver and the block
analyzer stop the run on the failure. The result carries the out-parameter `root` as an
`Option Node` (`none` when the C++ reference was left unassigned). -/
def esOperacionAritmetica (fuel : Nat) (tokens : List Token) (i : Nat) (stk : List DataType)
    (tabla : List Simbolo) : Except CErr (Bool × Nat × List DataType × List Simbolo × Option Node) :=
  if (i + 3 < tokens.length ∧ (tokAt tokens i).tipo = "IDENTIFICADOR")
     ∨ ((tokAt tokens i).tipo = "PARENTESIS_IZQUIERDO" ∧ (tokAt tokens (i + 1)).tipo = "OPERADOR")
     ∨ ((tokAt tokens (i + 1)).tipo = "PARENTESIS_IZQUIERDO")
     ∨ ((tokAt tokens (i + 1)).tipo = "PARENTESIS_DERECHO" ∧ (tokAt tokens (i + 1)).valor = "=") then
    let nombreVariable := (tokAt tokens i).valor
    match buscarVariable nombreVariable tabla with
    | none => .ok (false, i, stk, tabla, none)
    | some simboloDestino =>
      let posInicial := i
      match construirAST fuel tokens (i + 2) stk tabla with
      | .error (.rt _) => .ok (false, posInicial, stk, tabla, none)
      | .error e => .error e
      | .ok (root, i2, stk2) =>
        match stk2 with
        | [] => .error (.rt "pila semantica vacia")
        | tipoExpresion :: stk3 =>
          let tipoDestino := stringToDataType simboloDestino.tipo
          if tipoExpresion ≠ tipoDestino then .ok (false, posInicial, stk3, tabla, some root)
          else if i2 < tokens.length ∧ (tokAt tokens i2).tipo = "OPERADOR" ∧
                  (tokAt tokens i2).valor = ";" then
            match Node.evaluate tabla root with
            | .error (.rt _) => .ok (false, posInicial, stk3, tabla, some root)
            | .error e => .error e
            | .ok resultado =>
              let nuevoValor := if tipoDestino = DataType.INT then toString resultado.trunc
                                else floatToString resultado
              let tabla2 := actualizarValor tabla nombreVariable nuevoValor
              match Node.evaluate tabla2 root with
              | .error (.rt _) => .ok (false, posInicial, stk3, tabla2, some root)
              | .error e => .error e
              | .ok _ => .ok (true, i2 + 1, stk3, tabla2, some root)
          else .ok (false, i2, stk3, tabla, some root)
  else .ok (false, i, stk, tabla, none)

/-- bool esLectura(const vector<Token>&, size_t&): `read ( id )` with a declared
identifier; the trailing `;` is consumed when present but not required. -/
def esLectura (tokens : List Token) (i : Nat) (tabla : List Simbolo) : Bool × Nat :=
  if i + 3 < tokens.length ∧ (tokAt tokens i).tipo = "LECTURA" ∧
     (tokAt tokens (i + 1)).tipo = "PARENTESIS_IZQUIERDO" ∧
     (tokAt tokens (i + 2)).tipo = "IDENTIFICADOR" ∧
     (tokAt tokens (i + 3)).tipo = "PARENTESIS_DERECHO" then
    if (buscarVariable (tokAt tokens (i + 2)).valor tabla).isNone then (false, i)
    else
      if i + 4 < tokens.length ∧ (tokAt tokens (i + 4)).tipo = "OPERADOR" ∧
         (tokAt tokens (i + 4)).valor = ";" then (true, i + 5)
      else (true, i + 4)
  else (false, i)

/-- bool esEscritura(const vector<Token>&, size_t&): `write ( id|num|string )`; an
identifier argument must be declared; the trailing `;` is consumed when present. -/
def esEscritura (tokens : List Token) (i : Nat) (tabla : List Simbolo) : Bool × Nat :=
  if i + 3 < tokens.length ∧ (tokAt tokens i).tipo = "ESCRITURA" ∧
     (tokAt tokens (i + 1)).tipo = "PARENTESIS_IZQUIERDO" ∧
     ((tokAt tokens (i + 2)).tipo = "IDENTIFICADOR" ∨ (tokAt tokens (i + 2)).tipo = "NUMERO" ∨
      (tokAt tokens (i + 2)).tipo = "CADENA") ∧
     (tokAt tokens (i + 3)).tipo = "PARENTESIS_DERECHO" then
    if (tokAt tokens (i + 2)).tipo = "IDENTIFICADOR" ∧
       (buscarVariable (tokAt tokens (i + 2)).valor tabla).isNone then (false, i)
    else
      if i + 4 < tokens.length ∧ (tokAt tokens (i + 4)).tipo = "OPERADOR" ∧
         (tokAt tokens (i + 4)).valor = ";" then (true, i + 5)
      else (true, i + 4)
  else (false, i)

/-- bool esDeclaracionVariable(const vector<Token>&, size_t&): `<type> <id> = <rhs>`.
The duplicate check runs first; the right-hand side may be a number, a string literal, or
an already-declared identifier of the same declared type whose stored value is copied;
the value must satisfy `esValorCompatible`. Only then is the symbol appended and the
counter bumped — and only after that is the trailing `;` checked, so a declaration that
is well-formed except for the `;` returns `false` with the symbol already inserted and
the cursor already advanced by 4. The three distinct right-hand-side failure reports of
the C++ all return `false` with nothing changed, collapsed here into one `none`. -/
def esDeclaracionVariable (tokens : List Token) (i : Nat) (tabla : List Simbolo) (ctr : Nat) :
    Bool × Nat × List Simbolo × Nat :=
  if i + 3 < tokens.length ∧ (tokAt tokens i).tipo = "VARIABLE" ∧
     (tokAt tokens (i + 1)).tipo = "IDENTIFICADOR" ∧
     (tokAt tokens (i + 2)).tipo = "OPERADOR" ∧ (tokAt tokens (i + 2)).valor = "=" then
    let tipo := (tokAt tokens i).valor
    let nombre := (tokAt tokens (i + 1)).valor
    if tabla.any (fun s => s.nombre = nombre) then (false, i, tabla, ctr)
    else
      let rhs := tokAt tokens (i + 3)
      let valorRes : Option String :=
        if rhs.tipo = "NUMERO" ∨ rhs.tipo = "CADENA" then some rhs.valor
        else if rhs.tipo = "IDENTIFICADOR" then
          match buscarVariable rhs.valor tabla with
          | none => none
          | some varExistente =>
            if tipo ≠ varExistente.tipo then none else some varExistente.valor
        else none
      match valorRes with
      | none => (false, i, tabla, ctr)
      | some valor =>
        if esValorCompatible valor tipo then
          let tabla2 := tabla ++ [⟨nombre, tipo, valor, "id" ++ toString ctr⟩]
          if i + 4 < tokens.length ∧ (tokAt tokens (i + 4)).tipo = "OPERADOR" ∧
             (tokAt tokens (i + 4)).valor = ";" then
            (true, i + 5, tabla2, ctr + 1)
          else (false, i + 4, tabla2, ctr + 1)
        else (false, i, tabla, ctr)
  else (false, i, tabla, ctr)

mutual

/-- bool analizarBloque(const vector<Token>&, size_t&): while the cursor is in range and
not at a closing brace, try the six recognizers in the fixed source order; when none
matches return `false` (with whatever state the failed attempts left behind). The global
semantic stack is NOT reset between the statements of a block. -/
def analizarBloque (fuel : Nat) (tokens : List Token) (i : Nat) (stk : List DataType)
    (tabla : List Simbolo) (ctr : Nat) :
    Except CErr (Bool × Nat × List DataType × List Simbolo × Nat) :=
  match fuel with
  | 0 => .error (.rt "fuel agotado")
  | f + 1 =>
    if i < tokens.length ∧ (tokAt tokens i).tipo ≠ "LLAVE_DERECHA" then
      match esDeclaracionVariable tokens i tabla ctr with
      | (true, i1, tabla1, ctr1) => analizarBloque f tokens i1 stk tabla1 ctr1
      | (false, i1, tabla1, ctr1) =>
      match esEscritura tokens i1 tabla1 with
      | (true, i2) => analizarBloque f tokens i2 stk tabla1 ctr1
      | (false, i2) =>
      match esLectura tokens i2 tabla1 with
      | (true, i3) => analizarBloque f tokens i3 stk tabla1 ctr1
      | (false, i3) =>
      match esBloqueIf f tokens i3 stk tabla1 ctr1 with
      | .error e => .error e
      | .ok (true, i4, stk4, tabla4, ctr4) => analizarBloque f tokens i4 stk4 tabla4 ctr4
      | .ok (false, i4, stk4, tabla4, ctr4) =>
      match esBloqueWhile f tokens i4 stk4 tabla4 ctr4 with
      | .error e => .error e
      | .ok (true, i5, stk5, tabla5, ctr5) => analizarBloque f tokens i5 stk5 tabla5 ctr5
      | .ok (false, i5, stk5, tabla5, ctr5) =>
      match esOperacionAritmetica (2 * tokens.length + 2) tokens i5 stk5 tabla5 with
      | .error e => .error e
      | .ok (true, i6, stk6, tabla6, _) => analizarBloque f tokens i6 stk6 tabla6 ctr5
      | .ok (false, i6, stk6, tabla6, _) => .ok (false, i6, stk6, tabla6, ctr5)
    else .ok (true, i, stk, tabla, ctr)
termination_by structural fuel

/-- bool esBloqueIf(const vector<Token>&, size_t&): `if ( operand cmp operand )` with
identifier operands required to be declared (their types are computed but only used to
fail fast), then a braced block, then an optional `else` with its own braced block. When
the block after `else` is analyzed but its closing brace is missing, the C++ control flow
falls through to the trailing `return true`. -/
def esBloqueIf (fuel : Nat) (tokens : List Token) (i : Nat) (stk : List DataType)
    (tabla : List Simbolo) (ctr : Nat) :
    Except CErr (Bool × Nat × List DataType × List Simbolo × Nat) :=
  match fuel with
  | 0 => .error (.rt "fuel agotado")
  | f + 1 =>
    if i + 6 < tokens.length ∧ (tokAt tokens i).tipo = "CONDICION" ∧
       (tokAt tokens i).valor = "if" ∧
       (tokAt tokens (i + 1)).tipo = "PARENTESIS_IZQUIERDO" ∧
       ((tokAt tokens (i + 2)).tipo = "IDENTIFICADOR" ∨ (tokAt tokens (i + 2)).tipo = "NUMERO") ∧
       (tokAt tokens (i + 3)).tipo = "COMPARACION" ∧
       ((tokAt tokens (i + 4)).tipo = "IDENTIFICADOR" ∨ (tokAt tokens (i + 4)).tipo = "NUMERO") ∧
       (tokAt tokens (i + 5)).tipo = "PARENTESIS_DERECHO" then
      if (tokAt tokens (i + 2)).tipo ≠ "NUMERO" ∧
         (buscarVariable (tokAt tokens (i + 2)).valor tabla).isNone then
        .ok (false, i, stk, tabla, ctr)
      else if (tokAt tokens (i + 4)).tipo ≠ "NUMERO" ∧
              (buscarVariable (tokAt tokens (i + 4)).valor tabla).isNone then
        .ok (false, i, stk, tabla, ctr)
      else
        if i + 6 < tokens.length ∧ (tokAt tokens (i + 6)).tipo = "LLAVE_IZQUIERDA" then
          match analizarBloque f tokens (i + 7) stk tabla ctr with
          | .error e => .error e
          | .ok (false, ib, stkb, tabb, ctrb) => .ok (false, ib, stkb, tabb, ctrb)
          | .ok (true, ib, stkb, tabb, ctrb) =>
            if ib < tokens.length ∧ (tokAt tokens ib).tipo = "LLAVE_DERECHA" then
              if ib + 1 < tokens.length ∧ (tokAt tokens (ib + 1)).tipo = "CONDICION" ∧
                 (tokAt tokens (ib + 1)).valor = "else" then
                if ib + 2 < tokens.length ∧ (tokAt tokens (ib + 2)).tipo = "LLAVE_IZQUIERDA" then
                  match analizarBloque f tokens (ib + 3) stkb tabb ctrb with
                  | .error e => .error e
                  | .ok (false, ic, stkc, tabc, ctrc) => .ok (false, ic, stkc, tabc, ctrc)
                  | .ok (true, ic, stkc, tabc, ctrc) =>
                    if ic < tokens.length ∧ (tokAt tokens ic).tipo = "LLAVE_DERECHA" then
                      .ok (true, ic + 1, stkc, tabc, ctrc)
                    else .ok (true, ic, stkc, tabc, ctrc)
                else .ok (false, ib + 2, stkb, tabb, ctrb)
              else .ok (true, ib + 1, stkb, tabb, ctrb)
            else .ok (false, ib, stkb, tabb, ctrb)
        else .ok (false, i + 6, stk, tabla, ctr)
    else .ok (false, i, stk, tabla, ctr)
termination_by structural fuel

/-- bool esBloqueWhile(const vector<Token>&, size_t&): `while ( operand cmp operand )`
followed by a braced block; unlike `if`, no declaredness check is performed on the
operands. -/
def esBloqueWhile (fuel : Nat) (tokens : List Token) (i : Nat) (stk : List DataType)
    (tabla : List Simbolo) (ctr : Nat) :
    Except CErr (Bool × Nat × List DataType × List Simbolo × Nat) :=
  match fuel with
  | 0 => .error (.rt "fuel agotado")
  | f + 1 =>
    if i + 6 < tokens.length ∧ (tokAt tokens i).tipo = "CICLO" ∧
       (tokAt tokens i).valor = "while" ∧
       (tokAt tokens (i + 1)).tipo = "PARENTESIS_IZQUIERDO" ∧
       ((tokAt tokens (i + 2)).tipo = "IDENTIFICADOR" ∨ (tokAt tokens (i + 2)).tipo = "NUMERO") ∧
       (tokAt tokens (i + 3)).tipo = "COMPARACION" ∧
       ((tokAt tokens (i + 4)).tipo = "IDENTIFICADOR" ∨ (tokAt tokens (i + 4)).tipo = "NUMERO") ∧
       (tokAt tokens (i + 5)).tipo = "PARENTESIS_DERECHO" then
      if i + 6 < tokens.length ∧ (tokAt tokens (i + 6)).tipo = "LLAVE_IZQUIERDA" then
        match analizarBloque f tokens (i + 7) stk tabla ctr with
        | .error e => .error e
        | .ok (false, ib, stkb, tabb, ctrb) => .ok (false, ib, stkb, tabb, ctrb)
        | .ok (true, ib, stkb, tabb, ctrb) =>
          if ib < tokens.length ∧ (tokAt tokens ib).tipo = "LLAVE_DERECHA" then
            .ok (true, ib + 1, stkb, tabb, ctrb)
          else .ok (false, ib, stkb, tabb, ctrb)
      else .ok (false, i + 6, stk, tabla, ctr)
    else .ok (false, i, stk, tabla, ctr)
termination_by structural fuel

end

/-- The loop of bool analisisSintactico(const vector<Token>&): at each step the semantic
stack is cleared (`limpiarPilaSemantica`) and the six recognizers are tried in order at
the current cursor; state changes made by failed recognizers persist into the following
attempts, exactly as with the C++ globals. Returns the verdict together with the final
symbol table and id counter. -/
def analisisGo (fuel : Nat) (tokens : List Token) (i : Nat) (tabla : List Simbolo) (ctr : Nat) :
    Except CErr (Bool × List Simbolo × Nat) :=
  match fuel with
  | 0 => .error (.rt "fuel agotado")
  | f + 1 =>
    if i < tokens.length then
      match esDeclaracionVariable tokens i tabla ctr with
      | (true, i1, tabla1, ctr1) => analisisGo f tokens i1 tabla1 ctr1
      | (false, i1, tabla1, ctr1) =>
      match esEscritura tokens i1 tabla1 with
      | (true, i2) => analisisGo f tokens i2 tabla1 ctr1
      | (false, i2) =>
      match esLectura tokens i2 tabla1 with
      | (true, i3) => analisisGo f tokens i3 tabla1 ctr1
      | (false, i3) =>
      match esBloqueIf f tokens i3 [] tabla1 ctr1 with
      | .error e => .error e
      | .ok (true, i4, _, tabla4, ctr4) => analisisGo f tokens i4 tabla4 ctr4
      | .ok (false, i4, stk4, tabla4, ctr4) =>
      match esBloqueWhile f tokens i4 stk4 tabla4 ctr4 with
      | .error e => .error e
      | .ok (true, i5, _, tabla5, ctr5) => analisisGo f tokens i5 tabla5 ctr5
      | .ok (false, i5, stk5, tabla5, ctr5) =>
      match esOperacionAritmetica (2 * tokens.length + 2) tokens i5 stk5 tabla5 with
      | .error e => .error e
      | .ok (true, i6, _, tabla6, _) => analisisGo f tokens i6 tabla6 ctr5
      | .ok (false, _, _, tabla6, _) => .ok (false, tabla6, ctr5)
    else .ok (true, tabla, ctr)

/-- bool analisisSintactico(const vector<Token>&), started from the empty global symbol
table and `idGlobalCounter = 1` as in `main`. -/
def analisisSintactico (fuel : Nat) (tokens : List Token) : Except CErr (Bool × List Simbolo × Nat) :=
  analisisGo fuel tokens 0 [] 1

/-- `t = INT ∨ t = FLOAT`, as a Boolean. -/
def esNumerico (t : DataType) : Bool := t = DataType.INT || t = DataType.FLOAT

/-- The parse-time combination rule of `construirAST` as a total function on the numeric
cases: an Int/Float mix gives FLOAT, otherwise the left type survives. -/
def combineNum (a b : DataType) : DataType :=
  if (a = DataType.INT ∧ b = DataType.FLOAT) ∨ (a = DataType.FLOAT ∧ b = DataType.INT) then
    DataType.FLOAT
  else a

/-- What `parseFactor` does with a non-parenthesized leaf token: the node it builds and
the type it pushes; `none` when that leaf would fail. -/
def leafInfo (tabla : List Simbolo) (tk : Token) : Option (Node × DataType) :=
  if tk.tipo = "NUMERO" then
    match mkNumberNode tk.valor with
    | .ok n =>
      match n.getType tabla with
      | .ok t => some (n, t)
      | .error _ => none
    | .error _ => none
  else if tk.tipo = "IDENTIFICADOR" then
    match (Node.VariableNode tk.valor).getType tabla with
    | .ok t => some (Node.VariableNode tk.valor, t)
    | .error _ => none
  else none

/-- The node of `leafInfo`, with a junk default used only outside its domain. -/
def leafNodeD (tabla : List Simbolo) (tk : Token) : Node :=
  ((leafInfo tabla tk).getD (Node.VariableNode "", DataType.UNKNOWN)).1

/-- The pushed type of `leafInfo`, with a junk default used only outside its domain. -/
def leafTypeD (tabla : List Simbolo) (tk : Token) : DataType :=
  ((leafInfo tabla tk).getD (Node.VariableNode "", DataType.UNKNOWN)).2

/-- The value of a leaf, with a junk default used only outside its domain. -/
def leafValD (tabla : List Simbolo) (tk : Token) : Frac :=
  match Node.evaluate tabla (leafNodeD tabla tk) with
  | .ok v => v
  | .error _ => ⟨0, 1⟩

/-- Whether the leaf evaluates without an exception. -/
def leafEvalOk (tabla : List Simbolo) (tk : Token) : Bool :=
  match Node.evaluate tabla (leafNodeD tabla tk) with
  | .ok _ => true
  | .error _ => false

/-- The four operator characters of the C++ `switch`. -/
def opValido (c : Char) : Bool := c = '+' || c = '-' || c = '*' || c = '/'

/-- The C++ `switch (op)` as a total function. -/
def applyOp (c : Char) (a b : Frac) : Frac :=
  if c = '+' then a.add b
  else if c = '-' then a.sub b
  else if c = '*' then a.mul b
  else if c = '/' then a.div b
  else ⟨0, 1⟩

/-- The token text of a list of `(operator, term)` pairs. -/
def pairToks : List (Token × Token) → List Token
  | [] => []
  | p :: rest => p.1 :: p.2 :: pairToks rest

/-- A flat expression `t0 op1 t1 op2 t2 ...` as a token list. -/
def flatTokens (t0 : Token) (pairs : List (Token × Token)) : List Token :=
  t0 :: pairToks pairs

/-- One left-fold step over a `(operator, term)` pair: hang the accumulated tree as the
left child and combine the types the way the parse loop does. -/
def flatFoldStep (tabla : List Simbolo) (acc : Node × DataType) (p : Token × Token) :
    Node × DataType :=
  (Node.OperatorNode (firstChar p.1.valor) acc.1 (leafNodeD tabla p.2),
   combineNum acc.2 (leafTypeD tabla p.2))

/-- The left-folded tree and type of a flat expression. -/
def foldAST (tabla : List Simbolo) (t0 : Token) (pairs : List (Token × Token)) :
    Node × DataType :=
  pairs.foldl (flatFoldStep tabla) (leafNodeD tabla t0, leafTypeD tabla t0)

/-- The strict left-to-right value of a flat expression. -/
def foldVal (tabla : List Simbolo) (t0 : Token) (pairs : List (Token × Token)) : Frac :=
  pairs.foldl (fun a p => applyOp (firstChar p.1.valor) a (leafValD tabla p.2))
    (leafValD tabla t0)

theorem actualizarValor_nombres (tabla : List Simbolo) (nm v : String) :
    nombres (actualizarValor tabla nm v) = nombres tabla := by
  induction tabla with
  | nil => rfl
  | cons s rest ih =>
    simp only [actualizarValor]
    split
    · rfl
    · simp only [nombres, List.map_cons] at ih ⊢
      rw [ih]

theorem actualizarValor_tipos (tabla : List Simbolo) (nm v : String) :
    (actualizarValor tabla nm v).map Simbolo.tipo = tabla.map Simbolo.tipo := by
  induction tabla with
  | nil => rfl
  | cons s rest ih =>
    simp only [actualizarValor]
    split
    · rfl
    · simp only [List.map_cons] at ih ⊢
      rw [ih]

theorem actualizarValor_ids (tabla : List Simbolo) (nm v : String) :
    (actualizarValor tabla nm v).map Simbolo.id_contador = tabla.map Simbolo.id_contador := by
  induction tabla with
  | nil => rfl
  | cons s rest ih =>
    simp only [actualizarValor]
    split
    · rfl
    · simp only [List.map_cons] at ih ⊢
      rw [ih]

theorem esOper_spec (fuel : Nat) (tokens : List Token) (i : Nat) (stk : List DataType)
    (tabla : List Simbolo) (b : Bool) (i2 : Nat) (stk2 : List DataType) (tab2 : List Simbolo)
    (r : Option Node)
    (h : esOperacionAritmetica fuel tokens i stk tabla = .ok (b, i2, stk2, tab2, r)) :
    nombres tab2 = nombres tabla ∧
    (b = true → ∃ root q sym, r = some root ∧
        buscarVariable (tokAt tokens i).valor tabla = some sym ∧
        Node.evaluate tabla root = .ok q ∧
        tab2 = actualizarValor tabla (tokAt tokens i).valor
          (if stringToDataType sym.tipo = DataType.INT then toString q.trunc
           else floatToString q)) ∧
    (b = false → i2 = i ∨ ¬(i2 < tokens.length ∧ (tokAt tokens i2).tipo = "OPERADOR" ∧
        (tokAt tokens i2).valor = ";")) := by
  simp only [esOperacionAritmetica] at h
  split at h
  · split at h
    · simp only [Except.ok.injEq, Prod.mk.injEq] at h
      obtain ⟨hb, hi, hs, ht, hr⟩ := h
      subst hb; subst hi; subst hs; subst ht; subst hr
      refine ⟨rfl, ?_, ?_⟩
      · intro hc; simp at hc
      · intro _; exact Or.inl rfl
    · rename_i simboloDestino hbus
      split at h
      · simp only [Except.ok.injEq, Prod.mk.injEq] at h
        obtain ⟨hb, hi, hs, ht, hr⟩ := h
        subst hb; subst hi; subst hs; subst ht; subst hr
        refine ⟨rfl, ?_, ?_⟩
        · intro hc; simp at hc
        · intro _; exact Or.inl rfl
      · exact Except.noConfusion h
      · rename_i root i3 stk3 hAST
        split at h
        · exact Except.noConfusion h
        · rename_i tipoExpresion stk4
          split at h
          · simp only [Except.ok.injEq, Prod.mk.injEq] at h
            obtain ⟨hb, hi, hs, ht, hr⟩ := h
            subst hb; subst hi; subst hs; subst ht; subst hr
            refine ⟨rfl, ?_, ?_⟩
            · intro hc; simp at hc
            · intro _; exact Or.inl rfl
          · split at h
            · split at h
              · simp only [Except.ok.injEq, Prod.mk.injEq] at h
                obtain ⟨hb, hi, hs, ht, hr⟩ := h
                subst hb; subst hi; subst hs; subst ht; subst hr
                refine ⟨rfl, ?_, ?_⟩
                · intro hc; simp at hc
                · intro _; exact Or.inl rfl
              · exact Except.noConfusion h
              · rename_i resultado hEval
                split at h
                · simp only [Except.ok.injEq, Prod.mk.injEq] at h
                  obtain ⟨hb, hi, hs, ht, hr⟩ := h
                  subst hb; subst hi; subst hs; subst ht; subst hr
                  refine ⟨actualizarValor_nombres tabla _ _, ?_, ?_⟩
                  · intro hc; simp at hc
                  · intro _; exact Or.inl rfl
                · exact Except.noConfusion h
                · simp only [Except.ok.injEq, Prod.mk.injEq] at h
                  obtain ⟨hb, hi, hs, ht, hr⟩ := h
                  subst hb; subst hi; subst hs; subst ht; subst hr
                  refine ⟨actualizarValor_nombres tabla _ _, ?_, ?_⟩
                  · intro _
                    exact ⟨root, resultado, simboloDestino, rfl, hbus, hEval, rfl⟩
                  · intro hc; simp at hc
            · rename_i hnosemi
              simp only [Except.ok.injEq, Prod.mk.injEq] at h
              obtain ⟨hb, hi, hs, ht, hr⟩ := h
              subst hb; subst hi; subst hs; subst ht; subst hr
              refine ⟨rfl, ?_, ?_⟩
              · intro hc; simp at hc
              · intro _; exact Or.inr hnosemi
  · simp only [Except.ok.injEq, Prod.mk.injEq] at h
    obtain ⟨hb, hi, hs, ht, hr⟩ := h
    subst hb; subst hi; subst hs; subst ht; subst hr
    refine ⟨rfl, ?_, ?_⟩
    · intro hc; simp at hc
    · intro _; exact Or.inl rfl

theorem esDecl_spec (tokens : List Token) (i : Nat) (tabla : List Simbolo) (ctr : Nat)
    (b : Bool) (i2 : Nat) (tab2 : List Simbolo) (ctr2 : Nat)
    (h : esDeclaracionVariable tokens i tabla ctr = (b, i2, tab2, ctr2)) :
    (b = false ∧ tab2 = tabla ∧ ctr2 = ctr ∧ i2 = i) ∨
    (∃ valor, (tabla.any fun s => s.nombre = (tokAt tokens (i + 1)).valor) = false ∧
       tab2 = tabla ++ [⟨(tokAt tokens (i + 1)).valor, (tokAt tokens i).valor, valor,
                         "id" ++ toString ctr⟩] ∧
       ctr2 = ctr + 1 ∧
       (b = true → i2 = i + 5) ∧
       (b = false → i2 = i + 4 ∧ ¬(i + 4 < tokens.length ∧
          (tokAt tokens (i + 4)).tipo = "OPERADOR" ∧ (tokAt tokens (i + 4)).valor = ";"))) := by
  simp only [esDeclaracionVariable] at h
  split at h
  · split at h
    · simp only [Prod.mk.injEq] at h
      obtain ⟨hb, hi, ht, hc⟩ := h
      exact Or.inl ⟨hb.symm, ht.symm, hc.symm, hi.symm⟩
    · rename_i hdup
      split at h
      · simp only [Prod.mk.injEq] at h
        obtain ⟨hb, hi, ht, hc⟩ := h
        exact Or.inl ⟨hb.symm, ht.symm, hc.symm, hi.symm⟩
      · rename_i valor hval
        split at h
        · split at h
          · simp only [Prod.mk.injEq] at h
            obtain ⟨hb, hi, ht, hc⟩ := h
            subst hb; subst hi; subst ht; subst hc
            refine Or.inr ⟨valor, by simpa using hdup, rfl, rfl, fun _ => rfl, ?_⟩
            intro h79; simp at h79
          · rename_i hnosemi
            simp only [Prod.mk.injEq] at h
            obtain ⟨hb, hi, ht, hc⟩ := h
            subst hb; subst hi; subst ht; subst hc
            refine Or.inr ⟨valor, by simpa using hdup, rfl, rfl, ?_, fun _ => ⟨rfl, hnosemi⟩⟩
            intro h79; simp at h79
        · simp only [Prod.mk.injEq] at h
          obtain ⟨hb, hi, ht, hc⟩ := h
          exact Or.inl ⟨hb.symm, ht.symm, hc.symm, hi.symm⟩
  · simp only [Prod.mk.injEq] at h
    obtain ⟨hb, hi, ht, hc⟩ := h
    exact Or.inl ⟨hb.symm, ht.symm, hc.symm, hi.symm⟩

/-- C2, counterexample: the declaration `int x = 5` followed by a non-semicolon token is
well-formed except for the missing trailing `;`; the recognizer returns failure, yet the
symbol table has gained the entry and the id counter was bumped (and the cursor moved). -/
theorem C2_counterexample :
    esDeclaracionVariable [⟨"VARIABLE", "int"⟩, ⟨"IDENTIFICADOR", "x"⟩, ⟨"OPERADOR", "="⟩,
        ⟨"NUMERO", "5"⟩, ⟨"NUMERO", "7"⟩] 0 [] 1
      = (false, 4, [⟨"x", "int", "5", "id1"⟩], 2) ∧
    ([⟨"x", "int", "5", "id1"⟩] : List Simbolo) ≠ [] := by
  constructor
  · decide
  · decide

/-- C2 (amended): when the declaration recognizer returns failure, the symbol table and
id counter are exactly as before — except in the one case where the statement matched
`<type> <identifier> = <value>` with a compatible value but the trailing `;` was missing:
there the symbol is already inserted, the counter already bumped, and the cursor left
advanced by 4. -/
theorem C2_decl_failure_characterization (tokens : List Token) (i : Nat)
    (tabla : List Simbolo) (ctr : Nat) (i2 : Nat) (tab2 : List Simbolo) (ctr2 : Nat)
    (h : esDeclaracionVariable tokens i tabla ctr = (false, i2, tab2, ctr2)) :
    (tab2 = tabla ∧ ctr2 = ctr ∧ i2 = i) ∨
    (∃ valor, tab2 = tabla ++ [⟨(tokAt tokens (i + 1)).valor, (tokAt tokens i).valor, valor,
        "id" ++ toString ctr⟩] ∧
      ctr2 = ctr + 1 ∧ i2 = i + 4 ∧
      ¬(i + 4 < tokens.length ∧ (tokAt tokens (i + 4)).tipo = "OPERADOR" ∧
        (tokAt tokens (i + 4)).valor = ";")) := by
  rcases esDecl_spec tokens i tabla ctr false i2 tab2 ctr2 h with
    ⟨_, ht, hc, hi⟩ | ⟨valor, _, ht, hc, _, hfalse⟩
  · exact Or.inl ⟨ht, hc, hi⟩
  · obtain ⟨hi, hns⟩ := hfalse rfl
    exact Or.inr ⟨valor, ht, hc, hi, hns⟩

/-- C2, witness: the characterization applied to a duplicate declaration, which leaves
everything unchanged. -/
theorem C2_witness :
    (([⟨"x", "int", "1", "id9"⟩] : List Simbolo) = [⟨"x", "int", "1", "id9"⟩] ∧
       (7 : Nat) = 7 ∧ (0 : Nat) = 0) ∨
    (∃ valor, ([⟨"x", "int", "1", "id9"⟩] : List Simbolo) = [⟨"x", "int", "1", "id9"⟩] ++
        [⟨"x", "int", valor, "id7"⟩] ∧
      (7 : Nat) = 7 + 1 ∧ (0 : Nat) = 0 + 4 ∧
      ¬(0 + 4 < ([⟨"VARIABLE", "int"⟩, ⟨"IDENTIFICADOR", "x"⟩, ⟨"OPERADOR", "="⟩,
          ⟨"NUMERO", "5"⟩, ⟨"OPERADOR", ";"⟩] : List Token).length ∧
        (tokAt [⟨"VARIABLE", "int"⟩, ⟨"IDENTIFICADOR", "x"⟩, ⟨"OPERADOR", "="⟩,
          ⟨"NUMERO", "5"⟩, ⟨"OPERADOR", ";"⟩] (0 + 4)).tipo = "OPERADOR" ∧
        (tokAt [⟨"VARIABLE", "int"⟩, ⟨"IDENTIFICADOR", "x"⟩, ⟨"OPERADOR", "="⟩,
          ⟨"NUMERO", "5"⟩, ⟨"OPERADOR", ";"⟩] (0 + 4)).valor = ";")) := by
  have := C2_decl_failure_characterization
    [⟨"VARIABLE", "int"⟩, ⟨"IDENTIFICADOR", "x"⟩, ⟨"OPERADOR", "="⟩, ⟨"NUMERO", "5"⟩,
     ⟨"OPERADOR", ";"⟩] 0 [⟨"x", "int", "1", "id9"⟩] 7 0 [⟨"x", "int", "1", "id9"⟩] 7
    (by decide)
  exact this

/-- C3: the arithmetic-assignment guard never actually checks that the token after the
identifier is `=` (the comparison is unreachable because of C++ operator precedence), so
on `x + 5 ;` with `x` declared the recognizer succeeds, consumes all four tokens and
assigns 5 to `x` — the claim says it must fail and assign nothing. -/
theorem C3_guard_never_checks_equals :
    esOperacionAritmetica 9 [⟨"IDENTIFICADOR", "x"⟩, ⟨"ARITMETICO", "+"⟩, ⟨"NUMERO", "5"⟩,
        ⟨"OPERADOR", ";"⟩] 0 [] [⟨"x", "int", "1", "id1"⟩]
      = .ok (true, 4, [], [⟨"x", "int", "5", "id1"⟩], some (Node.NumberNode ⟨5, 1⟩ DataType.INT)) ∧
    (tokAt [⟨"IDENTIFICADOR", "x"⟩, ⟨"ARITMETICO", "+"⟩, ⟨"NUMERO", "5"⟩,
        ⟨"OPERADOR", ";"⟩] 1).valor ≠ "=" := by
  constructor
  · decide
  · decide

/-- C7, counterexample: with the well-typed expression parsed but the terminator missing
(`x = 5` followed by a number), the recognizer fails with the cursor left at position 3,
not restored to its entry position 0. -/
theorem C7_counterexample :
    esOperacionAritmetica 9 [⟨"IDENTIFICADOR", "x"⟩, ⟨"OPERADOR", "="⟩, ⟨"NUMERO", "5"⟩,
        ⟨"NUMERO", "7"⟩] 0 [] [⟨"x", "int", "1", "id1"⟩]
      = .ok (false, 3, [], [⟨"x", "int", "1", "id1"⟩],
             some (Node.NumberNode ⟨5, 1⟩ DataType.INT)) ∧
    (3 : Nat) ≠ 0 := by
  constructor
  · decide
  · decide

/-- C7 (amended): on failure the arithmetic-assignment recognizer restores the cursor to
its entry position in every case except one — when the expression parsed and type-checked
but the terminator `;` was missing, the cursor is left at the expression's end (a
position that does not hold a `;`). -/
theorem C7_cursor_on_failure (fuel : Nat) (tokens : List Token) (i : Nat)
    (stk : List DataType) (tabla : List Simbolo) (i2 : Nat) (stk2 : List DataType)
    (tab2 : List Simbolo) (r : Option Node)
    (h : esOperacionAritmetica fuel tokens i stk tabla = .ok (false, i2, stk2, tab2, r)) :
    i2 = i ∨ ¬(i2 < tokens.length ∧ (tokAt tokens i2).tipo = "OPERADOR" ∧
      (tokAt tokens i2).valor = ";") :=
  (esOper_spec fuel tokens i stk tabla false i2 stk2 tab2 r h).2.2 rfl

/-- C7, witness: the cursor property at an undeclared-variable failure. -/
theorem C7_witness :
    (0 : Nat) = 0 ∨ ¬((0 : Nat) < ([⟨"IDENTIFICADOR", "x"⟩, ⟨"OPERADOR", "="⟩,
        ⟨"NUMERO", "5"⟩, ⟨"OPERADOR", ";"⟩] : List Token).length ∧
      (tokAt [⟨"IDENTIFICADOR", "x"⟩, ⟨"OPERADOR", "="⟩, ⟨"NUMERO", "5"⟩,
        ⟨"OPERADOR", ";"⟩] 0).tipo = "OPERADOR" ∧
      (tokAt [⟨"IDENTIFICADOR", "x"⟩, ⟨"OPERADOR", "="⟩, ⟨"NUMERO", "5"⟩,
        ⟨"OPERADOR", ";"⟩] 0).valor = ";") :=
  C7_cursor_on_failure 9 [⟨"IDENTIFICADOR", "x"⟩, ⟨"OPERADOR", "="⟩, ⟨"NUMERO", "5"⟩,
    ⟨"OPERADOR", ";"⟩] 0 [] [] 0 [] [] none (by decide)

/-- C10: a successful arithmetic-assignment updates exactly the `valor` field of the
first symbol named by the destination token: the table equals `actualizarValor` of the
old table at that name with the rendered result of evaluating the returned tree against
the table as it was before the write-back; names, declared types, synthetic ids, order
and length are all unchanged. -/
theorem C10_assignment_frame (fuel : Nat) (tokens : List Token) (i : Nat)
    (stk : List DataType) (tabla : List Simbolo) (i2 : Nat) (stk2 : List DataType)
    (tab2 : List Simbolo) (r : Option Node)
    (h : esOperacionAritmetica fuel tokens i stk tabla = .ok (true, i2, stk2, tab2, r)) :
    ∃ root q sym, r = some root ∧
      buscarVariable (tokAt tokens i).valor tabla = some sym ∧
      Node.evaluate tabla root = .ok q ∧
      tab2 = actualizarValor tabla (tokAt tokens i).valor
        (if stringToDataType sym.tipo = DataType.INT then toString q.trunc
         else floatToString q) ∧
      nombres tab2 = nombres tabla ∧
      tab2.map Simbolo.tipo = tabla.map Simbolo.tipo ∧
      tab2.map Simbolo.id_contador = tabla.map Simbolo.id_contador ∧
      tab2.length = tabla.length := by
  obtain ⟨hn, hs, _⟩ := esOper_spec fuel tokens i stk tabla true i2 stk2 tab2 r h
  obtain ⟨root, q, sym, hr, hb, he, ht⟩ := hs rfl
  refine ⟨root, q, sym, hr, hb, he, ht, hn, ?_, ?_, ?_⟩
  · rw [ht]; exact actualizarValor_tipos tabla _ _
  · rw [ht]; exact actualizarValor_ids tabla _ _
  · calc tab2.length = (nombres tab2).length := (List.length_map tab2 Simbolo.nombre).symm
      _ = (nombres tabla).length := by rw [hn]
      _ = tabla.length := List.length_map tabla Simbolo.nombre

/-- C10, witness: the frame property at the concrete assignment `x = 2 ;` over the table
`[x: int = 1]`. -/
theorem C10_witness :
    ∃ root q sym, (some (Node.NumberNode ⟨2, 1⟩ DataType.INT) : Option Node) = some root ∧
      buscarVariable (tokAt [⟨"IDENTIFICADOR", "x"⟩, ⟨"OPERADOR", "="⟩, ⟨"NUMERO", "2"⟩,
          ⟨"OPERADOR", ";"⟩] 0).valor [⟨"x", "int", "1", "id1"⟩] = some sym ∧
      Node.evaluate [⟨"x", "int", "1", "id1"⟩] root = .ok q ∧
      ([⟨"x", "int", "2", "id1"⟩] : List Simbolo) =
        actualizarValor [⟨"x", "int", "1", "id1"⟩]
          (tokAt [⟨"IDENTIFICADOR", "x"⟩, ⟨"OPERADOR", "="⟩, ⟨"NUMERO", "2"⟩,
            ⟨"OPERADOR", ";"⟩] 0).valor
          (if stringToDataType sym.tipo = DataType.INT then toString q.trunc
           else floatToString q) ∧
      nombres [⟨"x", "int", "2", "id1"⟩] = nombres [⟨"x", "int", "1", "id1"⟩] ∧
      ([⟨"x", "int", "2", "id1"⟩] : List Simbolo).map Simbolo.tipo =
        ([⟨"x", "int", "1", "id1"⟩] : List Simbolo).map Simbolo.tipo ∧
      ([⟨"x", "int", "2", "id1"⟩] : List Simbolo).map Simbolo.id_contador =
        ([⟨"x", "int", "1", "id1"⟩] : List Simbolo).map Simbolo.id_contador ∧
      ([⟨"x", "int", "2", "id1"⟩] : List Simbolo).length =
        ([⟨"x", "int", "1", "id1"⟩] : List Simbolo).length :=
  C10_assignment_frame 9 [⟨"IDENTIFICADOR", "x"⟩, ⟨"OPERADOR", "="⟩, ⟨"NUMERO", "2"⟩,
    ⟨"OPERADOR", ";"⟩] 0 [] [⟨"x", "int", "1", "id1"⟩] 4 [] [⟨"x", "int", "2", "id1"⟩]
    (some (Node.NumberNode ⟨2, 1⟩ DataType.INT)) (by decide)

/-- C5, counterexample: the program `int z = 7 / 2;` of the claim is a declaration, and
declarations do not evaluate expressions: the run stores the literal text 7 in `z` (not
3), fails on the token `/` where the `;` was expected, and the whole analysis is
invalid. -/
theorem C5_counterexample :
    analisisSintactico 10 (Lexico "int z = 7 / 2 ;")
      = .ok (false, [⟨"z", "int", "7", "id1"⟩], 2) ∧
    ("7" : String) ≠ "3" := by
  constructor
  · decide
  · decide

/-- C5 (amended): truncation toward zero does happen, but in the arithmetic-assignment
write-back: after `int z = 7 ;` the statement `z = 7 / 2 ;` evaluates 7/2 as real
division and stores `3`; the declaration form `int z = 7 / 2 ;` instead inserts `z` with
the literal value 7 and then fails on the missing semicolon. -/
theorem C5_truncation_in_assignment :
    analisisSintactico 10 (Lexico "int z = 7 ; z = 7 / 2 ;")
      = .ok (true, [⟨"z", "int", "3", "id1"⟩], 2) ∧
    Frac.trunc (Frac.div ⟨7, 1⟩ ⟨2, 1⟩) = 3 ∧
    esDeclaracionVariable (Lexico "int z = 7 / 2 ;") 0 [] 1
      = (false, 4, [⟨"z", "int", "7", "id1"⟩], 2) := by
  refine ⟨?_, ?_, ?_⟩
  · decide
  · decide
  · decide

/-- C6, counterexample: combining two String operands under `-` does NOT fail the build:
`construirAST` on `s - t` (both declared strings) returns a tree and pushes STRING — the
parse-time combination checks only the type pair, never the operator. -/
theorem C6_counterexample :
    construirAST 2 [⟨"IDENTIFICADOR", "s"⟩, ⟨"ARITMETICO", "-"⟩, ⟨"IDENTIFICADOR", "t"⟩]
        0 [] [⟨"s", "string", "\"a\"", "id1"⟩, ⟨"t", "string", "\"b\"", "id2"⟩]
      = .ok (Node.OperatorNode '-' (Node.VariableNode "s") (Node.VariableNode "t"), 3,
             [DataType.STRING]) := by
  decide

/-- C6 (amended): the expression builder combines two String operands successfully under
every arithmetic operator character; the String-with-non-`+` restriction lives only in
`OperatorNode::getType` and therefore surfaces at evaluation time, as the error that only
concatenation is allowed on strings. -/
theorem C6_string_op_checked_at_evaluation (c : Char) (hc : c ≠ '+') :
    construirAST 2 [⟨"IDENTIFICADOR", "s"⟩, ⟨"ARITMETICO", String.mk [c]⟩,
        ⟨"IDENTIFICADOR", "t"⟩] 0 []
        [⟨"s", "string", "\"a\"", "id1"⟩, ⟨"t", "string", "\"b\"", "id2"⟩]
      = .ok (Node.OperatorNode c (Node.VariableNode "s") (Node.VariableNode "t"), 3,
             [DataType.STRING]) ∧
    Node.evaluate [⟨"s", "string", "\"a\"", "id1"⟩, ⟨"t", "string", "\"b\"", "id2"⟩]
        (Node.OperatorNode c (Node.VariableNode "s") (Node.VariableNode "t"))
      = .error (.rt "Error de tipo: solo se permite la concatenación (+) con strings") := by
  constructor
  · rfl
  · simp only [Node.evaluate, Node.getType, varGetType]
    norm_num [hc]
    rfl

/-- C6, witness: the amended fact at the concrete operator `-`. -/
theorem C6_witness :
    construirAST 2 [⟨"IDENTIFICADOR", "s"⟩, ⟨"ARITMETICO", String.mk ['-']⟩,
        ⟨"IDENTIFICADOR", "t"⟩] 0 []
        [⟨"s", "string", "\"a\"", "id1"⟩, ⟨"t", "string", "\"b\"", "id2"⟩]
      = .ok (Node.OperatorNode '-' (Node.VariableNode "s") (Node.VariableNode "t"), 3,
             [DataType.STRING]) ∧
    Node.evaluate [⟨"s", "string", "\"a\"", "id1"⟩, ⟨"t", "string", "\"b\"", "id2"⟩]
        (Node.OperatorNode '-' (Node.VariableNode "s") (Node.VariableNode "t"))
      = .error (.rt "Error de tipo: solo se permite la concatenación (+) con strings") :=
  C6_string_op_checked_at_evaluation '-' (by decide)

/-- C8, counterexample: the lexer tokenizes `-5` as an Arithmetic token `-` followed by a
Number token `5` — not as a single Number token `-5`; no token of the run carries the
text `-5`. -/
theorem C8_counterexample :
    Lexico "-5" = [⟨"ARITMETICO", "-"⟩, ⟨"NUMERO", "5"⟩] ∧
    (Lexico "-5").all (fun t => t.valor ≠ "-5") = true := by
  constructor
  · decide
  · decide

/-- C8 (amended): number tokens are unsigned (`\d+(\.\d+)?`): in `int x = -5 ;` the minus
sign is its own Arithmetic token; the signed regexes `-?\d+` and `-?\d+(\.\d+)?` belong to
the value-compatibility check of declarations, which does accept signed texts. -/
theorem C8_unsigned_number_tokens :
    Lexico "int x = -5 ;" = [⟨"VARIABLE", "int"⟩, ⟨"IDENTIFICADOR", "x"⟩,
      ⟨"OPERADOR", "="⟩, ⟨"ARITMETICO", "-"⟩, ⟨"NUMERO", "5"⟩, ⟨"OPERADOR", ";"⟩] ∧
    esValorCompatible "-5" "int" = true ∧
    esValorCompatible "-5.5" "float" = true ∧
    matchNumeros ['-', '5'] = none := by
  refine ⟨?_, ?_, ?_, ?_⟩
  · decide
  · decide
  · decide
  · decide

/-- C4: for every string-literal pair, in the program shape
`string s = "a"; string t = "b"; s = s + t;` the expression `s + t` builds successfully
with combined type STRING (type-legal at parse time), the destination type `string` maps
to STRING so the assignment type check compares equal types, yet evaluating the built
tree always fails with the string-operation error; consequently the whole run ends
invalid with both declarations intact and the assignment rolled back — also shown on the
exact lexed program of the claim. -/
theorem C4_string_concat_parse_ok_eval_fails (va vb : String) :
    construirAST 2 [⟨"IDENTIFICADOR", "s"⟩, ⟨"ARITMETICO", "+"⟩, ⟨"IDENTIFICADOR", "t"⟩]
        0 [] [⟨"s", "string", va, "id1"⟩, ⟨"t", "string", vb, "id2"⟩]
      = .ok (Node.OperatorNode '+' (Node.VariableNode "s") (Node.VariableNode "t"), 3,
             [DataType.STRING]) ∧
    stringToDataType "string" = DataType.STRING ∧
    Node.evaluate [⟨"s", "string", va, "id1"⟩, ⟨"t", "string", vb, "id2"⟩]
        (Node.OperatorNode '+' (Node.VariableNode "s") (Node.VariableNode "t"))
      = .error (.rt "Las operaciones con strings deben manejarse en otra función") ∧
    analisisSintactico 10
        [⟨"VARIABLE", "string"⟩, ⟨"IDENTIFICADOR", "s"⟩, ⟨"OPERADOR", "="⟩, ⟨"CADENA", va⟩,
         ⟨"OPERADOR", ";"⟩, ⟨"VARIABLE", "string"⟩, ⟨"IDENTIFICADOR", "t"⟩, ⟨"OPERADOR", "="⟩,
         ⟨"CADENA", vb⟩, ⟨"OPERADOR", ";"⟩, ⟨"IDENTIFICADOR", "s"⟩, ⟨"OPERADOR", "="⟩,
         ⟨"IDENTIFICADOR", "s"⟩, ⟨"ARITMETICO", "+"⟩, ⟨"IDENTIFICADOR", "t"⟩, ⟨"OPERADOR", ";"⟩]
      = .ok (false, [⟨"s", "string", va, "id1"⟩, ⟨"t", "string", vb, "id2"⟩], 3) ∧
    analisisSintactico 10 (Lexico "string s = \"a\"; string t = \"b\"; s = s + t;")
      = .ok (false, [⟨"s", "string", "\"a\"", "id1"⟩, ⟨"t", "string", "\"b\"", "id2"⟩], 3) :=
  ⟨rfl, rfl, rfl, rfl, by decide⟩

theorem leafInfo_some (tabla : List Simbolo) (tk : Token)
    (h : (leafInfo tabla tk).isSome = true) :
    leafInfo tabla tk = some (leafNodeD tabla tk, leafTypeD tabla tk) := by
  cases hL : leafInfo tabla tk with
  | none => rw [hL] at h; simp at h
  | some v => simp [leafNodeD, leafTypeD, hL]

theorem parseFactor_leaf (fuel : Nat) (tokens : List Token) (i : Nat) (stk : List DataType)
    (tabla : List Simbolo) (lado : Bool) (n : Node) (t : DataType)
    (h : leafInfo tabla (tokAt tokens i) = some (n, t)) :
    parseFactor fuel tokens i stk tabla lado = .ok (n, i + 1, t :: stk) := by
  unfold leafInfo at h
  unfold parseFactor
  by_cases hN : (tokAt tokens i).tipo = "NUMERO"
  · rw [if_pos hN] at h
    rw [if_neg (by rw [hN]; decide), if_pos hN]
    cases hmk : mkNumberNode (tokAt tokens i).valor with
    | error e => rw [hmk] at h; simp at h
    | ok nn =>
      rw [hmk] at h
      cases hgt : nn.getType tabla with
      | error e => simp [hgt] at h
      | ok tt =>
        simp only [hgt, Option.some.injEq, Prod.mk.injEq] at h
        obtain ⟨rfl, rfl⟩ := h
        simp [hmk, hgt]
  · rw [if_neg hN] at h
    by_cases hI : (tokAt tokens i).tipo = "IDENTIFICADOR"
    · rw [if_pos hI] at h
      rw [if_neg (by rw [hI]; decide), if_neg hN, if_pos hI]
      cases hgt : (Node.VariableNode (tokAt tokens i).valor).getType tabla with
      | error e => simp [hgt] at h
      | ok tt =>
        simp only [hgt, Option.some.injEq, Prod.mk.injEq] at h
        obtain ⟨rfl, rfl⟩ := h
        simp [hgt]
    · rw [if_neg hI] at h; simp at h

theorem pairToks_length (pairs : List (Token × Token)) :
    (pairToks pairs).length = 2 * pairs.length := by
  induction pairs with
  | nil => rfl
  | cons p rest ih => simp [pairToks, ih]; omega

theorem tokAt_shift (pre l : List Token) (k : Nat) :
    tokAt (pre ++ l) (pre.length + k) = tokAt l k := by
  unfold tokAt
  rw [List.getD_append_right pre l _ _ (Nat.le_add_right _ _)]
  congr 1
  omega

theorem combineNum_numerico (a b : DataType) (ha : esNumerico a = true)
    (hb : esNumerico b = true) : esNumerico (combineNum a b) = true := by
  cases a <;> cases b <;> simp_all [esNumerico, combineNum]

theorem combineNum_sel (a b : DataType) (ha : esNumerico a = true) (hb : esNumerico b = true)
    (C : DataType → Except CErr (Node × Nat × List DataType)) :
    (if (a = DataType.INT ∧ b = DataType.FLOAT) ∨ (a = DataType.FLOAT ∧ b = DataType.INT)
     then C DataType.FLOAT
     else if a = b then C a
     else .error (.rt "Tipos incompatibles")) = C (combineNum a b) := by
  cases a <;> cases b <;> simp_all [esNumerico, combineNum]

theorem opLoop_flat (rest : List (Token × Token)) : ∀ (f : Nat) (pre : List Token)
    (stk0 : List DataType) (tabla : List Simbolo) (left : Node) (lty : DataType),
    rest.length ≤ f →
    (∀ p ∈ rest, p.1.tipo = "ARITMETICO" ∧ (leafInfo tabla p.2).isSome = true ∧
      esNumerico (leafTypeD tabla p.2) = true) →
    esNumerico lty = true →
    opLoop f (pre ++ pairToks rest) pre.length (lty :: stk0) tabla left =
      .ok ((rest.foldl (flatFoldStep tabla) (left, lty)).1,
           pre.length + (pairToks rest).length,
           (rest.foldl (flatFoldStep tabla) (left, lty)).2 :: stk0) := by
  induction rest with
  | nil =>
    intro f pre stk0 tabla left lty _ _ _
    cases f with
    | zero =>
      unfold opLoop
      rw [if_neg (by simp [pairToks])]
      simp [pairToks]
    | succ f =>
      unfold opLoop
      rw [if_neg (by simp [pairToks])]
      simp [pairToks]
  | cons p rest ih =>
    intro f pre stk0 tabla left lty hf hp hn
    obtain ⟨op, leaf⟩ := p
    obtain ⟨hop, hsome, hnum⟩ := hp (op, leaf) (List.mem_cons_self _ _)
    cases f with
    | zero => simp at hf
    | succ f =>
      have htok0 : tokAt (pre ++ pairToks ((op, leaf) :: rest)) pre.length = op := by
        have h0 := tokAt_shift pre (pairToks ((op, leaf) :: rest)) 0
        simpa [pairToks, tokAt] using h0
      have htok1 : tokAt (pre ++ pairToks ((op, leaf) :: rest)) (pre.length + 1) = leaf := by
        have h1 := tokAt_shift pre (pairToks ((op, leaf) :: rest)) 1
        simpa [pairToks, tokAt] using h1
      have hlen : pre.length < (pre ++ pairToks ((op, leaf) :: rest)).length := by
        simp [pairToks]
      unfold opLoop
      rw [if_pos ⟨hlen, by rw [htok0]; exact hop⟩]
      rw [parseFactor_leaf f _ (pre.length + 1) (lty :: stk0) tabla true
            (leafNodeD tabla leaf) (leafTypeD tabla leaf)
            (by rw [htok1]; exact leafInfo_some tabla leaf hsome)]
      dsimp only
      have hre : pre ++ pairToks ((op, leaf) :: rest) = (pre ++ [op, leaf]) ++ pairToks rest := by
        simp [pairToks]
      have hihx := ih f (pre ++ [op, leaf]) stk0 tabla
        (Node.OperatorNode (firstChar op.valor) left (leafNodeD tabla leaf))
        (combineNum lty (leafTypeD tabla leaf))
        (by simpa using Nat.le_of_succ_le_succ hf)
        (fun q hq => hp q (List.mem_cons_of_mem _ hq))
        (combineNum_numerico lty (leafTypeD tabla leaf) hn hnum)
      have hfold : (((op, leaf) :: rest).foldl (flatFoldStep tabla) (left, lty)) =
          rest.foldl (flatFoldStep tabla)
            (Node.OperatorNode (firstChar op.valor) left (leafNodeD tabla leaf),
             combineNum lty (leafTypeD tabla leaf)) := by
        simp [List.foldl_cons, flatFoldStep]
      rw [htok0, hre, (by simp : pre.length + 1 + 1 = (pre ++ [op, leaf]).length), hfold]
      refine Eq.trans (combineNum_sel lty (leafTypeD tabla leaf) hn hnum
        (fun ty => opLoop f ((pre ++ [op, leaf]) ++ pairToks rest) ((pre ++ [op, leaf]).length)
          (ty :: stk0) tabla
          (Node.OperatorNode (firstChar op.valor) left (leafNodeD tabla leaf)))) ?_
      rw [hihx]
      have hlenf : (pre ++ [op, leaf]).length + (pairToks rest).length =
          pre.length + (pairToks ((op, leaf) :: rest)).length := by
        simp [pairToks]; omega
      rw [hlenf]

theorem construirAST_flat (t0 : Token) (pairs : List (Token × Token)) (stk : List DataType)
    (tabla : List Simbolo)
    (h0 : (leafInfo tabla t0).isSome = true)
    (h0n : esNumerico (leafTypeD tabla t0) = true)
    (hp : ∀ p ∈ pairs, p.1.tipo = "ARITMETICO" ∧ (leafInfo tabla p.2).isSome = true ∧
      esNumerico (leafTypeD tabla p.2) = true) :
    construirAST (pairs.length + 1) (flatTokens t0 pairs) 0 stk tabla =
      .ok ((foldAST tabla t0 pairs).1, 2 * pairs.length + 1,
           (foldAST tabla t0 pairs).2 :: stk) := by
  unfold construirAST
  rw [parseFactor_leaf pairs.length (flatTokens t0 pairs) 0 stk tabla false
        (leafNodeD tabla t0) (leafTypeD tabla t0)
        (leafInfo_some tabla t0 h0)]
  have h1 : flatTokens t0 pairs = [t0] ++ pairToks pairs := rfl
  have h2 : (0 : Nat) + 1 = ([t0] : List Token).length := rfl
  rw [h1, h2]
  dsimp only
  rw [opLoop_flat pairs pairs.length [t0] stk tabla (leafNodeD tabla t0)
        (leafTypeD tabla t0) (Nat.le_refl _) hp h0n]
  have h3 : ([t0] : List Token).length + (pairToks pairs).length = 2 * pairs.length + 1 := by
    rw [pairToks_length]; omega
  rw [h3]
  rfl

theorem leafInfo_getType (tabla : List Simbolo) (tk : Token) (n : Node) (t : DataType)
    (h : leafInfo tabla tk = some (n, t)) : Node.getType tabla n = .ok t := by
  unfold leafInfo at h
  by_cases hN : tk.tipo = "NUMERO"
  · rw [if_pos hN] at h
    cases hmk : mkNumberNode tk.valor with
    | error e => rw [hmk] at h; simp at h
    | ok nn =>
      rw [hmk] at h
      cases hgt : nn.getType tabla with
      | error e => simp [hgt] at h
      | ok tt =>
        simp only [hgt, Option.some.injEq, Prod.mk.injEq] at h
        obtain ⟨rfl, rfl⟩ := h
        exact hgt
  · rw [if_neg hN] at h
    by_cases hI : tk.tipo = "IDENTIFICADOR"
    · rw [if_pos hI] at h
      cases hgt : (Node.VariableNode tk.valor).getType tabla with
      | error e => simp [hgt] at h
      | ok tt =>
        simp only [hgt, Option.some.injEq, Prod.mk.injEq] at h
        obtain ⟨rfl, rfl⟩ := h
        exact hgt
    · rw [if_neg hI] at h; simp at h

theorem leafEvalOk_eval (tabla : List Simbolo) (tk : Token)
    (h : leafEvalOk tabla tk = true) :
    Node.evaluate tabla (leafNodeD tabla tk) = .ok (leafValD tabla tk) := by
  unfold leafEvalOk at h
  unfold leafValD
  cases he : Node.evaluate tabla (leafNodeD tabla tk) with
  | error e => rw [he] at h; simp at h
  | ok v => simp [he]

theorem esNumerico_ne_STRING (t : DataType) (h : esNumerico t = true) :
    ¬(t = DataType.STRING) := by
  cases t <;> simp_all [esNumerico]

theorem evalSwitch (c : Char) (hc : opValido c = true) (a b : Frac) :
    (if c = '+' then (Except.ok (a.add b) : Except CErr Frac)
     else if c = '-' then .ok (a.sub b)
     else if c = '*' then .ok (a.mul b)
     else if c = '/' then .ok (a.div b)
     else .error (.rt "Operador desconocido")) = .ok (applyOp c a b) := by
  unfold opValido at hc
  unfold applyOp
  by_cases h1 : c = '+' <;> by_cases h2 : c = '-' <;> by_cases h3 : c = '*' <;>
    by_cases h4 : c = '/' <;> simp_all

theorem combineNum_getType (a b : DataType) (c : Char) (ha : esNumerico a = true)
    (hb : esNumerico b = true) :
    (if (a = DataType.INT ∧ b = DataType.FLOAT) ∨ (a = DataType.FLOAT ∧ b = DataType.INT)
     then (Except.ok DataType.FLOAT : Except CErr DataType)
     else if a ≠ b then
       .error (.rt "Error de tipo: no se pueden mezclar tipos diferentes en operaciones")
     else if a = DataType.STRING ∧ c ≠ '+' then
       .error (.rt "Error de tipo: solo se permite la concatenación (+) con strings")
     else .ok a) = .ok (combineNum a b) := by
  cases a <;> cases b <;> simp_all [esNumerico, combineNum]

theorem eval_fold (rest : List (Token × Token)) : ∀ (tabla : List Simbolo) (acc : Node)
    (ty : DataType) (v : Frac),
    Node.getType tabla acc = .ok ty → esNumerico ty = true →
    Node.evaluate tabla acc = .ok v →
    (∀ p ∈ rest, (leafInfo tabla p.2).isSome = true ∧
       esNumerico (leafTypeD tabla p.2) = true ∧
       opValido (firstChar p.1.valor) = true ∧ leafEvalOk tabla p.2 = true) →
    Node.getType tabla (rest.foldl (flatFoldStep tabla) (acc, ty)).1 =
        .ok (rest.foldl (flatFoldStep tabla) (acc, ty)).2 ∧
    esNumerico (rest.foldl (flatFoldStep tabla) (acc, ty)).2 = true ∧
    Node.evaluate tabla (rest.foldl (flatFoldStep tabla) (acc, ty)).1 =
        .ok (rest.foldl (fun a p => applyOp (firstChar p.1.valor) a (leafValD tabla p.2)) v) := by
  induction rest with
  | nil => intro tabla acc ty v hg hn he _; exact ⟨hg, hn, he⟩
  | cons p rest ih =>
    intro tabla acc ty v hg hn he hp
    obtain ⟨op, leaf⟩ := p
    obtain ⟨hsome, hnum, hval, hev⟩ := hp (op, leaf) (List.mem_cons_self _ _)
    have hgt_leaf : Node.getType tabla (leafNodeD tabla leaf) = .ok (leafTypeD tabla leaf) :=
      leafInfo_getType tabla leaf _ _ (leafInfo_some tabla leaf hsome)
    have hgt' : Node.getType tabla
        (Node.OperatorNode (firstChar op.valor) acc (leafNodeD tabla leaf)) =
        .ok (combineNum ty (leafTypeD tabla leaf)) := by
      simp only [Node.getType, hg, hgt_leaf]
      exact combineNum_getType ty (leafTypeD tabla leaf) (firstChar op.valor) hn hnum
    have hev_leaf := leafEvalOk_eval tabla leaf hev
    have he' : Node.evaluate tabla
        (Node.OperatorNode (firstChar op.valor) acc (leafNodeD tabla leaf)) =
        .ok (applyOp (firstChar op.valor) v (leafValD tabla leaf)) := by
      simp only [Node.evaluate, hgt', he, hev_leaf]
      rw [if_neg (esNumerico_ne_STRING _ (combineNum_numerico ty (leafTypeD tabla leaf) hn hnum))]
      exact evalSwitch (firstChar op.valor) hval v (leafValD tabla leaf)
    have hfold : (((op, leaf) :: rest).foldl (flatFoldStep tabla) (acc, ty)) =
        rest.foldl (flatFoldStep tabla)
          (Node.OperatorNode (firstChar op.valor) acc (leafNodeD tabla leaf),
           combineNum ty (leafTypeD tabla leaf)) := by
      simp [List.foldl_cons, flatFoldStep]
    rw [hfold]
    have hvfold : (((op, leaf) :: rest).foldl
        (fun a p => applyOp (firstChar p.1.valor) a (leafValD tabla p.2)) v) =
        rest.foldl (fun a p => applyOp (firstChar p.1.valor) a (leafValD tabla p.2))
          (applyOp (firstChar op.valor) v (leafValD tabla leaf)) := by
      simp [List.foldl_cons]
    rw [hvfold]
    exact ih tabla _ _ _ hgt' (combineNum_numerico ty (leafTypeD tabla leaf) hn hnum) he'
      (fun q hq => hp q (List.mem_cons_of_mem _ hq))

/-- C1: expression building and evaluation are flat and left-associative with uniform
precedence. For every flat expression `t0 op1 t1 op2 t2 ...` over numeric leaves, the
builder returns exactly the left-nested tree `((t0 op1 t1) op2 t2) ...` (with the
left-folded combined type pushed on the stack), and evaluation of that tree is the strict
left-to-right fold of the operator applications. In particular, with `x = 5` and `y = 3`,
`x + y * x` builds `((x + y) * x)` and evaluates to 40 — computed as `(5+3)*5`, not 20 —
and the full program `int x = 5; int y = 3; int z = 0; z = x + y * x;` stores 40 in `z`. -/
theorem C1_flat_left_to_right :
    (∀ (t0 : Token) (pairs : List (Token × Token)) (stk : List DataType) (tabla : List Simbolo),
      (leafInfo tabla t0).isSome = true →
      esNumerico (leafTypeD tabla t0) = true →
      (∀ p ∈ pairs, p.1.tipo = "ARITMETICO" ∧ (leafInfo tabla p.2).isSome = true ∧
        esNumerico (leafTypeD tabla p.2) = true) →
      construirAST (pairs.length + 1) (flatTokens t0 pairs) 0 stk tabla =
        .ok ((foldAST tabla t0 pairs).1, 2 * pairs.length + 1,
             (foldAST tabla t0 pairs).2 :: stk)) ∧
    (∀ (t0 : Token) (pairs : List (Token × Token)) (tabla : List Simbolo),
      (leafInfo tabla t0).isSome = true →
      esNumerico (leafTypeD tabla t0) = true →
      leafEvalOk tabla t0 = true →
      (∀ p ∈ pairs, (leafInfo tabla p.2).isSome = true ∧
        esNumerico (leafTypeD tabla p.2) = true ∧
        opValido (firstChar p.1.valor) = true ∧ leafEvalOk tabla p.2 = true) →
      Node.evaluate tabla (foldAST tabla t0 pairs).1 = .ok (foldVal tabla t0 pairs)) ∧
    (construirAST 3 [⟨"IDENTIFICADOR", "x"⟩, ⟨"ARITMETICO", "+"⟩, ⟨"IDENTIFICADOR", "y"⟩,
        ⟨"ARITMETICO", "*"⟩, ⟨"IDENTIFICADOR", "x"⟩] 0 []
        [⟨"x", "int", "5", "id1"⟩, ⟨"y", "int", "3", "id2"⟩]
      = .ok (Node.OperatorNode '*'
               (Node.OperatorNode '+' (Node.VariableNode "x") (Node.VariableNode "y"))
               (Node.VariableNode "x"), 5, [DataType.INT]) ∧
     Node.evaluate [⟨"x", "int", "5", "id1"⟩, ⟨"y", "int", "3", "id2"⟩]
        (Node.OperatorNode '*'
          (Node.OperatorNode '+' (Node.VariableNode "x") (Node.VariableNode "y"))
          (Node.VariableNode "x"))
      = .ok ⟨40, 1⟩ ∧
     (⟨40, 1⟩ : Frac) ≠ ⟨20, 1⟩ ∧
     analisisSintactico 10 (Lexico "int x = 5 ; int y = 3 ; int z = 0 ; z = x + y * x ;")
      = .ok (true, [⟨"x", "int", "5", "id1"⟩, ⟨"y", "int", "3", "id2"⟩,
                    ⟨"z", "int", "40", "id3"⟩], 4)) := by
  refine ⟨?_, ?_, ?_, ?_, ?_, ?_⟩
  · intro t0 pairs stk tabla h0 h0n hp
    exact construirAST_flat t0 pairs stk tabla h0 h0n hp
  · intro t0 pairs tabla h0 h0n h0e hp
    exact (eval_fold pairs tabla (leafNodeD tabla t0) (leafTypeD tabla t0) (leafValD tabla t0)
      (leafInfo_getType tabla t0 _ _ (leafInfo_some tabla t0 h0)) h0n
      (leafEvalOk_eval tabla t0 h0e) hp).2.2
  · decide
  · decide
  · decide
  · decide

/-- C1, witness: the general build theorem applied to the concrete flat expression
`x + y * x` over the table `x = 5, y = 3`. -/
theorem C1_witness :
    construirAST (([(⟨"ARITMETICO", "+"⟩, ⟨"IDENTIFICADOR", "y"⟩),
        (⟨"ARITMETICO", "*"⟩, ⟨"IDENTIFICADOR", "x"⟩)] : List (Token × Token)).length + 1)
      (flatTokens ⟨"IDENTIFICADOR", "x"⟩
        [(⟨"ARITMETICO", "+"⟩, ⟨"IDENTIFICADOR", "y"⟩),
         (⟨"ARITMETICO", "*"⟩, ⟨"IDENTIFICADOR", "x"⟩)]) 0 []
      [⟨"x", "int", "5", "id1"⟩, ⟨"y", "int", "3", "id2"⟩]
    = .ok ((foldAST [⟨"x", "int", "5", "id1"⟩, ⟨"y", "int", "3", "id2"⟩]
              ⟨"IDENTIFICADOR", "x"⟩
              [(⟨"ARITMETICO", "+"⟩, ⟨"IDENTIFICADOR", "y"⟩),
               (⟨"ARITMETICO", "*"⟩, ⟨"IDENTIFICADOR", "x"⟩)]).1,
           2 * ([(⟨"ARITMETICO", "+"⟩, ⟨"IDENTIFICADOR", "y"⟩),
                 (⟨"ARITMETICO", "*"⟩, ⟨"IDENTIFICADOR", "x"⟩)] : List (Token × Token)).length + 1,
           (foldAST [⟨"x", "int", "5", "id1"⟩, ⟨"y", "int", "3", "id2"⟩]
              ⟨"IDENTIFICADOR", "x"⟩
              [(⟨"ARITMETICO", "+"⟩, ⟨"IDENTIFICADOR", "y"⟩),
               (⟨"ARITMETICO", "*"⟩, ⟨"IDENTIFICADOR", "x"⟩)]).2 :: []) :=
  C1_flat_left_to_right.1 ⟨"IDENTIFICADOR", "x"⟩
    [(⟨"ARITMETICO", "+"⟩, ⟨"IDENTIFICADOR", "y"⟩),
     (⟨"ARITMETICO", "*"⟩, ⟨"IDENTIFICADOR", "x"⟩)] []
    [⟨"x", "int", "5", "id1"⟩, ⟨"y", "int", "3", "id2"⟩]
    (by decide) (by decide) (by decide)

theorem nodup_append_fresh (tabla : List Simbolo) (sym : Simbolo)
    (hfresh : (tabla.any fun s => s.nombre = sym.nombre) = false)
    (hnd : (nombres tabla).Nodup) : (nombres (tabla ++ [sym])).Nodup := by
  have hmem : sym.nombre ∉ nombres tabla := by
    intro hcon
    obtain ⟨s, hs, hns⟩ := List.mem_map.mp hcon
    have := List.any_eq_false.mp hfresh s hs
    simp [hns] at this
  simp [nombres, List.nodup_append]
  exact ⟨hnd, fun s hs hcon => hmem (hcon ▸ List.mem_map_of_mem Simbolo.nombre hs)⟩

theorem esDecl_nodup (tokens : List Token) (i : Nat) (tabla : List Simbolo) (ctr : Nat)
    (b : Bool) (i2 : Nat) (tab2 : List Simbolo) (ctr2 : Nat)
    (h : esDeclaracionVariable tokens i tabla ctr = (b, i2, tab2, ctr2))
    (hnd : (nombres tabla).Nodup) : (nombres tab2).Nodup := by
  rcases esDecl_spec tokens i tabla ctr b i2 tab2 ctr2 h with
    ⟨_, ht, _, _⟩ | ⟨valor, hfresh, ht, _, _, _⟩
  · rw [ht]; exact hnd
  · rw [ht]; exact nodup_append_fresh tabla _ hfresh hnd

theorem bloque_nodup : ∀ (fuel : Nat),
    (∀ (tokens : List Token) (i : Nat) (stk : List DataType) (tabla : List Simbolo)
       (ctr : Nat) (b : Bool) (i2 : Nat) (stk2 : List DataType) (tab2 : List Simbolo)
       (ctr2 : Nat),
      analizarBloque fuel tokens i stk tabla ctr = .ok (b, i2, stk2, tab2, ctr2) →
      (nombres tabla).Nodup → (nombres tab2).Nodup) ∧
    (∀ (tokens : List Token) (i : Nat) (stk : List DataType) (tabla : List Simbolo)
       (ctr : Nat) (b : Bool) (i2 : Nat) (stk2 : List DataType) (tab2 : List Simbolo)
       (ctr2 : Nat),
      esBloqueIf fuel tokens i stk tabla ctr = .ok (b, i2, stk2, tab2, ctr2) →
      (nombres tabla).Nodup → (nombres tab2).Nodup) ∧
    (∀ (tokens : List Token) (i : Nat) (stk : List DataType) (tabla : List Simbolo)
       (ctr : Nat) (b : Bool) (i2 : Nat) (stk2 : List DataType) (tab2 : List Simbolo)
       (ctr2 : Nat),
      esBloqueWhile fuel tokens i stk tabla ctr = .ok (b, i2, stk2, tab2, ctr2) →
      (nombres tabla).Nodup → (nombres tab2).Nodup) := by
  intro fuel
  induction fuel with
  | zero =>
    refine ⟨?_, ?_, ?_⟩ <;>
      (intro tokens i stk tabla ctr b i2 stk2 tab2 ctr2 h hnd;
       simp [analizarBloque, esBloqueIf, esBloqueWhile] at h)
  | succ f ih =>
    obtain ⟨ihB, ihI, ihW⟩ := ih
    refine ⟨?_, ?_, ?_⟩
    · intro tokens i stk tabla ctr b i2 stk2 tab2 ctr2 h hnd
      simp only [analizarBloque] at h
      split at h
      · split at h
        · rename_i i1 tabla1 ctr1 heqD
          exact ihB _ _ _ _ _ _ _ _ _ _ h (esDecl_nodup _ _ _ _ _ _ _ _ heqD hnd)
        · rename_i i1 tabla1 ctr1 heqD
          have hnd1 := esDecl_nodup _ _ _ _ _ _ _ _ heqD hnd
          split at h
          · exact ihB _ _ _ _ _ _ _ _ _ _ h hnd1
          · split at h
            · exact ihB _ _ _ _ _ _ _ _ _ _ h hnd1
            · split at h
              · exact Except.noConfusion h
              · rename_i i4 stk4 tabla4 ctr4 heqI
                exact ihB _ _ _ _ _ _ _ _ _ _ h (ihI _ _ _ _ _ _ _ _ _ _ heqI hnd1)
              · rename_i i4 stk4 tabla4 ctr4 heqI
                have hnd4 := ihI _ _ _ _ _ _ _ _ _ _ heqI hnd1
                split at h
                · exact Except.noConfusion h
                · rename_i i5 stk5 tabla5 ctr5 heqW
                  exact ihB _ _ _ _ _ _ _ _ _ _ h (ihW _ _ _ _ _ _ _ _ _ _ heqW hnd4)
                · rename_i i5 stk5 tabla5 ctr5 heqW
                  have hnd5 := ihW _ _ _ _ _ _ _ _ _ _ heqW hnd4
                  split at h
                  · exact Except.noConfusion h
                  · rename_i i6 stk6 tabla6 r6 heqO
                    have hnd6 : (nombres tabla6).Nodup := by
                      rw [(esOper_spec _ _ _ _ _ _ _ _ _ _ heqO).1]; exact hnd5
                    exact ihB _ _ _ _ _ _ _ _ _ _ h hnd6
                  · rename_i i6 stk6 tabla6 r6 heqO
                    have hnd6 : (nombres tabla6).Nodup := by
                      rw [(esOper_spec _ _ _ _ _ _ _ _ _ _ heqO).1]; exact hnd5
                    simp only [Except.ok.injEq, Prod.mk.injEq] at h
                    obtain ⟨hb, hi, hs, ht, hc⟩ := h
                    subst ht
                    exact hnd6
      · simp only [Except.ok.injEq, Prod.mk.injEq] at h
        obtain ⟨hb, hi, hs, ht, hc⟩ := h
        subst ht
        exact hnd
    · intro tokens i stk tabla ctr b i2 stk2 tab2 ctr2 h hnd
      simp only [esBloqueIf] at h
      split at h
      · split at h
        · simp only [Except.ok.injEq, Prod.mk.injEq] at h
          obtain ⟨hb, hi, hs, ht, hc⟩ := h
          subst ht; exact hnd
        · split at h
          · simp only [Except.ok.injEq, Prod.mk.injEq] at h
            obtain ⟨hb, hi, hs, ht, hc⟩ := h
            subst ht; exact hnd
          · split at h
            · split at h
              · exact Except.noConfusion h
              · rename_i ib stkb tabb ctrb heqB
                simp only [Except.ok.injEq, Prod.mk.injEq] at h
                obtain ⟨hb, hi, hs, ht, hc⟩ := h
                subst ht
                exact ihB _ _ _ _ _ _ _ _ _ _ heqB hnd
              · rename_i ib stkb tabb ctrb heqB
                have hndb := ihB _ _ _ _ _ _ _ _ _ _ heqB hnd
                split at h
                · split at h
                  · split at h
                    · split at h
                      · exact Except.noConfusion h
                      · rename_i ic stkc tabc ctrc heqC
                        simp only [Except.ok.injEq, Prod.mk.injEq] at h
                        obtain ⟨hb, hi, hs, ht, hc⟩ := h
                        subst ht
                        exact ihB _ _ _ _ _ _ _ _ _ _ heqC hndb
                      · rename_i ic stkc tabc ctrc heqC
                        have hndc := ihB _ _ _ _ _ _ _ _ _ _ heqC hndb
                        split at h <;>
                          (simp only [Except.ok.injEq, Prod.mk.injEq] at h;
                           obtain ⟨hb, hi, hs, ht, hc⟩ := h; subst ht; exact hndc)
                    · simp only [Except.ok.injEq, Prod.mk.injEq] at h
                      obtain ⟨hb, hi, hs, ht, hc⟩ := h
                      subst ht; exact hndb
                  · simp only [Except.ok.injEq, Prod.mk.injEq] at h
                    obtain ⟨hb, hi, hs, ht, hc⟩ := h
                    subst ht; exact hndb
                · simp only [Except.ok.injEq, Prod.mk.injEq] at h
                  obtain ⟨hb, hi, hs, ht, hc⟩ := h
                  subst ht; exact hndb
            · simp only [Except.ok.injEq, Prod.mk.injEq] at h
              obtain ⟨hb, hi, hs, ht, hc⟩ := h
              subst ht; exact hnd
      · simp only [Except.ok.injEq, Prod.mk.injEq] at h
        obtain ⟨hb, hi, hs, ht, hc⟩ := h
        subst ht; exact hnd
    · intro tokens i stk tabla ctr b i2 stk2 tab2 ctr2 h hnd
      simp only [esBloqueWhile] at h
      split at h
      · split at h
        · split at h
          · exact Except.noConfusion h
          · rename_i ib stkb tabb ctrb heqB
            simp only [Except.ok.injEq, Prod.mk.injEq] at h
            obtain ⟨hb, hi, hs, ht, hc⟩ := h
            subst ht
            exact ihB _ _ _ _ _ _ _ _ _ _ heqB hnd
          · rename_i ib stkb tabb ctrb heqB
            have hndb := ihB _ _ _ _ _ _ _ _ _ _ heqB hnd
            split at h <;>
              (simp only [Except.ok.injEq, Prod.mk.injEq] at h;
               obtain ⟨hb, hi, hs, ht, hc⟩ := h; subst ht; exact hndb)
        · simp only [Except.ok.injEq, Prod.mk.injEq] at h
          obtain ⟨hb, hi, hs, ht, hc⟩ := h
          subst ht; exact hnd
      · simp only [Except.ok.injEq, Prod.mk.injEq] at h
        obtain ⟨hb, hi, hs, ht, hc⟩ := h
        subst ht; exact hnd

theorem analisisGo_nodup : ∀ (fuel : Nat) (tokens : List Token) (i : Nat)
    (tabla : List Simbolo) (ctr : Nat) (b : Bool) (tab2 : List Simbolo) (ctr2 : Nat),
    analisisGo fuel tokens i tabla ctr = .ok (b, tab2, ctr2) →
    (nombres tabla).Nodup → (nombres tab2).Nodup := by
  intro fuel
  induction fuel with
  | zero =>
    intro tokens i tabla ctr b tab2 ctr2 h hnd
    simp [analisisGo] at h
  | succ f ih =>
    intro tokens i tabla ctr b tab2 ctr2 h hnd
    simp only [analisisGo] at h
    split at h
    · split at h
      · rename_i i1 tabla1 ctr1 heqD
        exact ih _ _ _ _ _ _ _ h (esDecl_nodup _ _ _ _ _ _ _ _ heqD hnd)
      · rename_i i1 tabla1 ctr1 heqD
        have hnd1 := esDecl_nodup _ _ _ _ _ _ _ _ heqD hnd
        split at h
        · exact ih _ _ _ _ _ _ _ h hnd1
        · split at h
          · exact ih _ _ _ _ _ _ _ h hnd1
          · split at h
            · exact Except.noConfusion h
            · rename_i i4 stk4 tabla4 ctr4 heqI
              exact ih _ _ _ _ _ _ _ h ((bloque_nodup f).2.1 _ _ _ _ _ _ _ _ _ _ heqI hnd1)
            · rename_i i4 stk4 tabla4 ctr4 heqI
              have hnd4 := (bloque_nodup f).2.1 _ _ _ _ _ _ _ _ _ _ heqI hnd1
              split at h
              · exact Except.noConfusion h
              · rename_i i5 stk5 tabla5 ctr5 heqW
                exact ih _ _ _ _ _ _ _ h ((bloque_nodup f).2.2 _ _ _ _ _ _ _ _ _ _ heqW hnd4)
              · rename_i i5 stk5 tabla5 ctr5 heqW
                have hnd5 := (bloque_nodup f).2.2 _ _ _ _ _ _ _ _ _ _ heqW hnd4
                split at h
                · exact Except.noConfusion h
                · rename_i i6 stk6 tabla6 r6 heqO
                  have hnd6 : (nombres tabla6).Nodup := by
                    rw [(esOper_spec _ _ _ _ _ _ _ _ _ _ heqO).1]; exact hnd5
                  exact ih _ _ _ _ _ _ _ h hnd6
                · rename_i i6 stk6 tabla6 r6 heqO
                  have hnd6 : (nombres tabla6).Nodup := by
                    rw [(esOper_spec _ _ _ _ _ _ _ _ _ _ heqO).1]; exact hnd5
                  simp only [Except.ok.injEq, Prod.mk.injEq] at h
                  obtain ⟨hb, ht, hc⟩ := h
                  subst ht
                  exact hnd6
    · simp only [Except.ok.injEq, Prod.mk.injEq] at h
      obtain ⟨hb, ht, hc⟩ := h
      subst ht
      exact hnd

/-- C9: symbol-table name uniqueness is an invariant. The declaration recognizer rejects
a name already present before inserting, so it maps a table with pairwise-distinct names
to one with pairwise-distinct names; the assignment recognizer never changes the name
column at all (it only overwrites the value of the first matching entry); and a full
driver run therefore ends — from the empty initial table — with pairwise-distinct
names. -/
theorem C9_name_uniqueness :
    (∀ (tokens : List Token) (i : Nat) (tabla : List Simbolo) (ctr : Nat) (b : Bool)
       (i2 : Nat) (tab2 : List Simbolo) (ctr2 : Nat),
      esDeclaracionVariable tokens i tabla ctr = (b, i2, tab2, ctr2) →
      (nombres tabla).Nodup → (nombres tab2).Nodup) ∧
    (∀ (fuel : Nat) (tokens : List Token) (i : Nat) (stk : List DataType)
       (tabla : List Simbolo) (b : Bool) (i2 : Nat) (stk2 : List DataType)
       (tab2 : List Simbolo) (r : Option Node),
      esOperacionAritmetica fuel tokens i stk tabla = .ok (b, i2, stk2, tab2, r) →
      nombres tab2 = nombres tabla) ∧
    (∀ (fuel : Nat) (tokens : List Token) (b : Bool) (tab2 : List Simbolo) (ctr2 : Nat),
      analisisSintactico fuel tokens = .ok (b, tab2, ctr2) → (nombres tab2).Nodup) := by
  refine ⟨?_, ?_, ?_⟩
  · intro tokens i tabla ctr b i2 tab2 ctr2 h hnd
    exact esDecl_nodup tokens i tabla ctr b i2 tab2 ctr2 h hnd
  · intro fuel tokens i stk tabla b i2 stk2 tab2 r h
    exact (esOper_spec fuel tokens i stk tabla b i2 stk2 tab2 r h).1
  · intro fuel tokens b tab2 ctr2 h
    exact analisisGo_nodup fuel tokens 0 [] 1 b tab2 ctr2 h (by simp [nombres])

/-- C9, witness: the driver invariant instantiated on the run of `int x = 1 ;`, whose
final table has the single name `x`. -/
theorem C9_witness : (nombres [⟨"x", "int", "1", "id1"⟩]).Nodup :=
  C9_name_uniqueness.2.2 5 (Lexico "int x = 1 ;") true [⟨"x", "int", "1", "id1"⟩] 2
    (by decide)
